import Mathlib

/-!
# Pulse ingestion gateway: the admission pipeline of `ingest-go`

A shallow embedding of the Go service under `ingest-go/internal`:

* `config.Load` (the credential map),
* `redis.Client.CheckRateLimit` and `redis.Client.CheckIdempotency`,
* `kafka.Producer.PublishRawEvent`,
* the HTTP layer: `IngestRequest.Validate`, the response helpers, `authMiddleware`,
  `rateLimitMiddleware`, `EventHandler.IngestEvent` and the chain built by `NewRouter`.

Modelling conventions.

* The outside world is an explicit state `World`: the Redis keyspace, the messages the broker has
  accepted on `events.raw`, and a chronological log of every call made to Redis or to the broker
  (failed calls included).
* Everything a request reads from outside the program is an input `Env` of that request: the two
  clock readings, the generated UUID, and whether each external call fails.  A failing call leaves
  the keyspace and the topic as they were.
* Go strings are Lean strings; Go `int`/`int64` are `Int` (no counter in this program comes near
  the 64-bit range inside one minute bucket).
* Key expiry is not played out: the embedding covers a stretch of time in which no key reaches its
  expiry.  The expiry arguments are kept in the call log.
* The JSON decoder and `time.Parse` belong to the Go standard library: the decoded body is part of
  the request, and the timestamp parser is a parameter of `Validate`.
-/

namespace Pulse

/-! ## package config -/

/-- Go `config.Config`.  `APIKeys` is the map api_key -> tenant_id, kept as an association list
read with `List.lookup`; an insertion conses in front, so a later insertion wins. -/
structure Config where
  Port : String
  RedisAddr : String
  KafkaBrokers : List String
  RateLimitPerMin : Int
  IdempotencyTTL : Int
  APIKeys : List (String × String)
  RateLimitEnabled : Bool
  IdempotencyEnabled : Bool
deriving DecidableEq, Repr

/-- Go `unicode.IsSpace`, the white space that `strings.TrimSpace` removes. -/
def isSpace (c : Char) : Bool :=
  let n := c.toNat
  n = 0x09 || n = 0x0A || n = 0x0B || n = 0x0C || n = 0x0D || n = 0x20 || n = 0x85 || n = 0xA0 ||
  n = 0x1680 || (0x2000 ≤ n && n ≤ 0x200A) || n = 0x2028 || n = 0x2029 || n = 0x202F ||
  n = 0x205F || n = 0x3000

/-- Go `strings.TrimSpace`. -/
def stringsTrimSpace (s : List Char) : List Char :=
  ((s.dropWhile isSpace).reverse.dropWhile isSpace).reverse

/-- Go `strings.Split(s, sep)` for a one-character separator: all the pieces, the empty string
giving one empty piece. -/
def stringsSplit (sep : Char) : List Char → List (List Char)
  | [] => [[]]
  | c :: cs =>
    if c = sep then [] :: stringsSplit sep cs
    else
      match stringsSplit sep cs with
      | [] => [[c]]
      | p :: ps => (c :: p) :: ps

/-- Go `strings.SplitN(s, sep, 2)` for a one-character separator: the part before the first
separator and the unsplit rest, or the whole string alone when it has no separator. -/
def stringsSplitN2 (sep : Char) (s : List Char) : List (List Char) :=
  match s.dropWhile (fun c => c != sep) with
  | [] => [s]
  | _ :: rest => [s.takeWhile (fun c => c != sep), rest]

/-- The loop of `config.Load` over the pairs of `apiKeysStr`. -/
def loadAPIKeys (apiKeysStr : String) : List (String × String) :=
  (stringsSplit ',' apiKeysStr.data).foldl
    (fun m pair =>
      match stringsSplitN2 ':' (stringsTrimSpace pair) with
      | [p0, p1] =>
        let tenantID := String.mk (stringsTrimSpace p0)
        let apiKey := String.mk (stringsTrimSpace p1)
        (apiKey, tenantID) :: m
      | _ => m)
    []

/-- Go `config.Load`, with the string of pairs as an argument. -/
def LoadFrom (apiKeysStr : String) : Except String Config :=
  let cfg : Config :=
    { Port := "8080"
      RedisAddr := "localhost:6379"
      KafkaBrokers := ["localhost:9092"]
      RateLimitPerMin := 300
      IdempotencyTTL := 1800
      RateLimitEnabled := true
      IdempotencyEnabled := true
      APIKeys := loadAPIKeys apiKeysStr }
  if cfg.APIKeys.length = 0 then .error "no API keys configured" else .ok cfg

/-- Go `config.Load`: the pairs are hard-coded. -/
def Load : Except String Config :=
  LoadFrom "tenant_a:key_a,tenant_b:key_b"

/-! ## package http: models and responses -/

/-- Go `IngestRequest`, the decoded request body.  `Payload` is `none` for a nil map. -/
structure IngestRequest where
  EventID : String
  EventType : String
  SchemaVersion : Int
  OccurredAt : String
  Payload : Option (List (String × String))
deriving DecidableEq, Repr

/-- Go `KafkaEventWrapper`. -/
structure KafkaEventWrapper where
  TenantID : String
  ReceivedAt : String
  RequestID : String
  IdempotencyKey : String
  Event : IngestRequest
deriving DecidableEq, Repr

/-- Go `IngestResponse`. -/
structure IngestResponse where
  Status : String
  RequestID : String
  Duplicate : Bool
deriving DecidableEq, Repr

abbrev ErrorCode := String

def ErrorCodeValidation : ErrorCode := "VALIDATION_ERROR"
def ErrorCodeUnauthorized : ErrorCode := "UNAUTHORIZED"
def ErrorCodeRateLimited : ErrorCode := "RATE_LIMITED"
def ErrorCodeInternal : ErrorCode := "INTERNAL_ERROR"
def ErrorCodeBadRequest : ErrorCode := "BAD_REQUEST"

def StatusAccepted : Nat := 202
def StatusBadRequest : Nat := 400
def StatusUnauthorized : Nat := 401
def StatusTooManyRequests : Nat := 429
def StatusInternalServerError : Nat := 500

/-- Go `ErrorDetail`. -/
structure ErrorDetail where
  Code : ErrorCode
  Message : String
deriving DecidableEq, Repr

/-- Go `ErrorResponse`. -/
structure ErrorResponse where
  Error : ErrorDetail
deriving DecidableEq, Repr

/-- Go `AppError`. -/
structure AppError where
  Code : ErrorCode
  Message : String
  HTTPStatus : Nat
deriving DecidableEq, Repr

/-- A Go `error` value: an `*AppError`, or any other error with its text. -/
inductive GoError where
  | app (e : AppError)
  | other (text : String)
deriving DecidableEq, Repr

def NewValidationError (message : String) : AppError :=
  { Code := ErrorCodeValidation, Message := message, HTTPStatus := StatusBadRequest }

def NewUnauthorizedError (message : String) : AppError :=
  { Code := ErrorCodeUnauthorized, Message := message, HTTPStatus := StatusUnauthorized }

def NewRateLimitError (message : String) : AppError :=
  { Code := ErrorCodeRateLimited, Message := message, HTTPStatus := StatusTooManyRequests }

def NewInternalError (message : String) : AppError :=
  { Code := ErrorCodeInternal, Message := message, HTTPStatus := StatusInternalServerError }

/-- The JSON document written to the client. -/
inductive ResponseBody where
  | ingest (r : IngestResponse)
  | error (r : ErrorResponse)
deriving DecidableEq, Repr

/-- What the `http.ResponseWriter` has received: status code and JSON body. -/
structure Response where
  statusCode : Nat
  body : ResponseBody
deriving DecidableEq, Repr

/-- Go `RespondJSON`. -/
def RespondJSON (statusCode : Nat) (data : ResponseBody) : Response :=
  { statusCode := statusCode, body := data }

/-- Go `RespondError`: an error that is not an `*AppError` becomes an internal error. -/
def RespondError (err : GoError) : Response :=
  let appErr : AppError :=
    match err with
    | .app e => e
    | .other text => NewInternalError text
  let response : ErrorResponse := { Error := { Code := appErr.Code, Message := appErr.Message } }
  RespondJSON appErr.HTTPStatus (.error response)

/-- Go `IngestRequest.Validate`; `parseTime s` tells whether `time.Parse(time.RFC3339, s)`
returns no error. -/
def Validate (parseTime : String → Bool) (r : IngestRequest) : Option AppError :=
  if r.EventID = "" then some (NewValidationError "event_id is required")
  else if r.EventType = "" then some (NewValidationError "event_type is required")
  else if r.SchemaVersion ≤ 0 then some (NewValidationError "schema_version must be positive")
  else if r.OccurredAt = "" then some (NewValidationError "occurred_at is required")
  else if !parseTime r.OccurredAt then
    some (NewValidationError "occurred_at must be in RFC3339 format")
  else if r.Payload = none then some (NewValidationError "payload is required")
  else none

/-! ### The timestamp grammar

`time.Parse` is not part of the repository.  `parseRFC3339` is the RFC 3339 date-time grammar
`YYYY-MM-DDTHH:MM:SS[.fraction](Z|+HH:MM|-HH:MM)` with the calendar ranges checked; it serves as
the concrete parser where one is needed. -/

def twoDigits (a b : Char) : Option Nat :=
  if a.isDigit && b.isDigit then some ((a.toNat - 48) * 10 + (b.toNat - 48)) else none

def daysIn (year month : Nat) : Nat :=
  if month = 2 then
    if (year % 4 = 0 && year % 100 != 0) || year % 400 = 0 then 29 else 28
  else if month = 4 || month = 6 || month = 9 || month = 11 then 30
  else 31

def parseZone : List Char → Bool
  | ['Z'] => true
  | [sign, h1, h2, ':', m1, m2] =>
    (sign = '+' || sign = '-') &&
      (match twoDigits h1 h2, twoDigits m1 m2 with
       | some h, some m => h < 24 && m < 60
       | _, _ => false)
  | _ => false

def parseFractionAndZone : List Char → Bool
  | '.' :: d :: rest => d.isDigit && parseZone (rest.dropWhile Char.isDigit)
  | rest => parseZone rest

def parseRFC3339 (s : String) : Bool :=
  match s.data with
  | y1 :: y2 :: y3 :: y4 :: '-' :: mo1 :: mo2 :: '-' :: d1 :: d2 :: 'T' ::
      h1 :: h2 :: ':' :: mi1 :: mi2 :: ':' :: s1 :: s2 :: rest =>
    (match twoDigits y1 y2, twoDigits y3 y4, twoDigits mo1 mo2, twoDigits d1 d2,
        twoDigits h1 h2, twoDigits mi1 mi2, twoDigits s1 s2 with
     | some ya, some yb, some mo, some d, some h, some mi, some sec =>
       1 ≤ mo && mo ≤ 12 && 1 ≤ d && d ≤ daysIn (ya * 100 + yb) mo &&
         h < 24 && mi < 60 && sec < 60 && parseFractionAndZone rest
     | _, _, _, _, _, _, _ => false)
  | _ => false

deriving instance DecidableEq for Except

/-! ## The outside world -/

/-- One call made to an external service. -/
inductive Call where
  | Incr (key : String)
  | Expire (key : String) (seconds : Nat)
  | SetNX (key : String) (value : Int) (ttlSeconds : Int)
  | SendMessage (topic : String) (msg : KafkaEventWrapper)
deriving DecidableEq, Repr

/-- The state outside the process.  `redis` is the keyspace (read with `List.lookup`, a write
conses in front), `topic` the messages accepted on `events.raw`, `calls` every call so far. -/
structure World where
  redis : List (String × Int)
  topic : List KafkaEventWrapper
  calls : List Call
deriving DecidableEq, Repr

/-- What one request reads from outside the program. -/
structure Env where
  minuteBucket : String
  receivedAt : String
  requestID : String
  incrFails : Bool
  expireFails : Bool
  setNXFails : Bool
  sendFails : Bool
deriving DecidableEq, Repr

/-- Redis `INCR key`: an absent key counts as 0. -/
def redisIncr (fails : Bool) (key : String) (w : World) : Except String Int × World :=
  let w1 := { w with calls := w.calls ++ [Call.Incr key] }
  if fails then (.error "redis unavailable", w1)
  else
    let count := (w.redis.lookup key).getD 0 + 1
    (.ok count, { w1 with redis := (key, count) :: w1.redis })

/-- Redis `EXPIRE key seconds`; returns the error, if any. -/
def redisExpire (fails : Bool) (key : String) (seconds : Nat) (w : World) :
    Option String × World :=
  let w1 := { w with calls := w.calls ++ [Call.Expire key seconds] }
  if fails then (some "redis unavailable", w1) else (none, w1)

/-- Redis `SET key value NX EX ttl`: writes only when the key is absent and tells whether it
wrote. -/
def redisSetNX (fails : Bool) (key : String) (value : Int) (ttlSeconds : Int) (w : World) :
    Except String Bool × World :=
  let w1 := { w with calls := w.calls ++ [Call.SetNX key value ttlSeconds] }
  if fails then (.error "redis unavailable", w1)
  else
    match w.redis.lookup key with
    | some _ => (.ok false, w1)
    | none => (.ok true, { w1 with redis := (key, value) :: w1.redis })

/-! ## package redis -/

/-- The key of a rate window counter, `fmt.Sprintf("rl:%s:%s", tenantID, minuteBucket)`. -/
def rateKey (tenantID minuteBucket : String) : String :=
  "rl:" ++ tenantID ++ ":" ++ minuteBucket

/-- The key of an idempotency record, `fmt.Sprintf("idem:%s:%s", tenantID, idempotencyKey)`. -/
def idemKey (tenantID idempotencyKey : String) : String :=
  "idem:" ++ tenantID ++ ":" ++ idempotencyKey

/-- Go `Client.CheckRateLimit`: `ok true` when the request is allowed. -/
def CheckRateLimit (env : Env) (tenantID : String) (limitPerMin : Int) (w : World) :
    Except String Bool × World :=
  let minuteBucket := env.minuteBucket
  let key := rateKey tenantID minuteBucket
  match redisIncr env.incrFails key w with
  | (.error e, w1) => (.error ("failed to increment rate limit counter: " ++ e), w1)
  | (.ok count, w1) =>
    let (expireErr, w2) :=
      if count = 1 then redisExpire env.expireFails key 60 w1 else (none, w1)
    match expireErr with
    | some e => (.error ("failed to set expiration: " ++ e), w2)
    | none => if count > limitPerMin then (.ok false, w2) else (.ok true, w2)

/-- Go `Client.CheckIdempotency`: `ok true` when the key was already there (a duplicate). -/
def CheckIdempotency (env : Env) (tenantID idempotencyKey : String) (ttlSeconds : Int)
    (w : World) : Except String Bool × World :=
  let key := idemKey tenantID idempotencyKey
  match redisSetNX env.setNXFails key 1 ttlSeconds w with
  | (.error e, w1) => (.error ("failed to check idempotency: " ++ e), w1)
  | (.ok success, w1) => (.ok (!success), w1)

/-! ## package kafka -/

def TopicRawEvents : String := "events.raw"

/-- Go `Producer.PublishRawEvent`; returns the error, if any.  Marshalling a
`KafkaEventWrapper` cannot fail, so the only failure is that of `SendMessage`. -/
def PublishRawEvent (env : Env) (event : KafkaEventWrapper) (w : World) :
    Option String × World :=
  let w1 := { w with calls := w.calls ++ [Call.SendMessage TopicRawEvents event] }
  if env.sendFails then (some "failed to send message: broker unavailable", w1)
  else (none, { w1 with topic := w1.topic ++ [event] })

/-! ## package http: middleware, handler, router -/

/-- The parts of an `*http.Request` the service reads: the headers, the outcome of decoding the
body as an `IngestRequest` (`none` on a decoding error), and the value stored in the context
under `tenantIDKey`. -/
structure Request where
  Header : List (String × String)
  Body : Option IngestRequest
  ctxTenantID : Option String
deriving DecidableEq, Repr

/-- Go `r.Header.Get(name)`: the empty string when the header is absent. -/
def Request.HeaderGet (r : Request) (name : String) : String :=
  (r.Header.lookup name).getD ""

/-- Go `GetTenantID`. -/
def GetTenantID (ctx : Option String) : String :=
  match ctx with
  | some tenantID => tenantID
  | none => ""

/-- An `http.Handler`: it reads the request and its environment, acts on the world and writes
one response. -/
abbrev Handler := Env → Request → World → Response × World

/-- Go `authMiddleware`. -/
def authMiddleware (cfg : Config) (next : Handler) : Handler := fun env r w =>
  let apiKey := r.HeaderGet "X-API-Key"
  if apiKey = "" then
    (RespondError (.app (NewUnauthorizedError "X-API-Key header is required")), w)
  else
    match cfg.APIKeys.lookup apiKey with
    | none => (RespondError (.app (NewUnauthorizedError "Invalid API key")), w)
    | some tenantID => next env { r with ctxTenantID := some tenantID } w

/-- Go `loggingMiddleware`: the log line is not part of the model. -/
def loggingMiddleware (next : Handler) : Handler := fun env r w =>
  next env r w

/-- Go `rateLimitMiddleware`. -/
def rateLimitMiddleware (cfg : Config) (next : Handler) : Handler := fun env r w =>
  let tenantID := GetTenantID r.ctxTenantID
  if tenantID = "" then
    (RespondError (.app (NewInternalError "Tenant ID not found in context")), w)
  else
    match CheckRateLimit env tenantID cfg.RateLimitPerMin w with
    | (.error _, w1) => next env r w1
    | (.ok allowed, w1) =>
      if !allowed then
        (RespondError (.app (NewRateLimitError
          ("Rate limit exceeded: " ++ toString cfg.RateLimitPerMin ++ " requests per minute"))),
          w1)
      else next env r w1

/-- Go `EventHandler.IngestEvent`. -/
def IngestEvent (parseTime : String → Bool) (cfg : Config) : Handler := fun env r w =>
  let tenantID := GetTenantID r.ctxTenantID
  if tenantID = "" then
    (RespondError (.app (NewInternalError "Tenant ID not found")), w)
  else
    match r.Body with
    | none => (RespondError (.app (NewValidationError "Invalid JSON payload")), w)
    | some req =>
      match Validate parseTime req with
      | some err => (RespondError (.app err), w)
      | none =>
        let requestID := env.requestID
        let idempotencyKey := r.HeaderGet "Idempotency-Key"
        if idempotencyKey = "" then
          (RespondError (.app (NewValidationError "Idempotency-Key header is required")), w)
        else
          let isDuplicate := false
          let (dup, w1) :=
            if cfg.IdempotencyEnabled then
              match CheckIdempotency env tenantID idempotencyKey cfg.IdempotencyTTL w with
              | (.error _, w1) => (false, w1)
              | (.ok duplicate, w1) => (duplicate, w1)
            else (false, w)
          if dup then
            let response : IngestResponse :=
              { Status := "accepted", RequestID := requestID, Duplicate := true }
            (RespondJSON StatusAccepted (.ingest response), w1)
          else
            let wrapper : KafkaEventWrapper :=
              { TenantID := tenantID
                ReceivedAt := env.receivedAt
                RequestID := requestID
                IdempotencyKey := idempotencyKey
                Event := req }
            match PublishRawEvent env wrapper w1 with
            | (some _, w2) =>
              (RespondError (.app (NewInternalError "Failed to publish event")), w2)
            | (none, w2) =>
              let response : IngestResponse :=
                { Status := "accepted", RequestID := requestID, Duplicate := isDuplicate }
              (RespondJSON StatusAccepted (.ingest response), w2)

/-- The handler that `NewRouter` installs for `POST /events`: logging, then authentication, then
rate limiting when it is enabled, then `IngestEvent`. -/
def NewRouter (parseTime : String → Bool) (cfg : Config) : Handler :=
  loggingMiddleware
    (authMiddleware cfg
      (if cfg.RateLimitEnabled then rateLimitMiddleware cfg (IngestEvent parseTime cfg)
       else IngestEvent parseTime cfg))

/-- Serve the requests one after the other; the responses come back in order. -/
def serveAll (h : Handler) : List (Env × Request) → World → List Response × World
  | [], w => ([], w)
  | (env, r) :: rest, w =>
    let (resp, w1) := h env r w
    let (resps, w2) := serveAll h rest w1
    (resp :: resps, w2)

/-- A run of `CheckRateLimit` calls for one tenant, one after the other; the outcomes come back
in order. -/
def checkRateLimitAll (tenantID : String) (limitPerMin : Int) :
    List Env → World → List (Except String Bool) × World
  | [], w => ([], w)
  | env :: rest, w =>
    let (res, w1) := CheckRateLimit env tenantID limitPerMin w
    let (ress, w2) := checkRateLimitAll tenantID limitPerMin rest w1
    (res :: ress, w2)

/-- The number of calls made to the broker so far, failed ones included. -/
def publishCalls (w : World) : Nat :=
  (w.calls.filter (fun c => match c with
    | Call.SendMessage _ _ => true
    | _ => false)).length

/-- The calls made to Redis so far, failed ones included. -/
def storeCalls (w : World) : List Call :=
  w.calls.filter (fun c => match c with
    | Call.SendMessage _ _ => false
    | _ => true)

/-! ## Sample data -/

/-- A configuration as `Load` builds it, with a budget of 2 requests per minute. -/
def sampleConfig : Config :=
  { Port := "8080"
    RedisAddr := "localhost:6379"
    KafkaBrokers := ["localhost:9092"]
    RateLimitPerMin := 2
    IdempotencyTTL := 1800
    APIKeys := [("key_b", "tenant_b"), ("key_a", "tenant_a")]
    RateLimitEnabled := true
    IdempotencyEnabled := true }

/-- The event `event_id=e1, event_type=click, schema_version=1,
occurred_at=2024-01-01T00:00:00Z, payload={}`. -/
def sampleEvent : IngestRequest :=
  { EventID := "e1"
    EventType := "click"
    SchemaVersion := 1
    OccurredAt := "2024-01-01T00:00:00Z"
    Payload := some [] }

/-- A request of tenant_a carrying `sampleEvent` and the given idempotency token. -/
def sampleRequest (token : String) : Request :=
  { Header := [("X-API-Key", "key_a"), ("Idempotency-Key", token)]
    Body := some sampleEvent
    ctxTenantID := none }

/-- An environment inside the minute 2024-01-01T00:05 in which every external call succeeds. -/
def sampleEnv (requestID : String) : Env :=
  { minuteBucket := "2024-01-01T00:05"
    receivedAt := "2024-01-01T00:05:07Z"
    requestID := requestID
    incrFails := false
    expireFails := false
    setNXFails := false
    sendFails := false }

/-- An empty keyspace, an empty topic, no call made. -/
def emptyWorld : World :=
  { redis := [], topic := [], calls := [] }

/-! ## Theorems -/

/-- C9.  `Validate` returns no error exactly when event_id and event_type are non-empty,
schema_version is positive, occurred_at parses and payload is present; every error it returns is
a VALIDATION_ERROR with status 400, and it is the error of the first failing field in the order
event_id, event_type, schema_version, occurred_at, payload.  The parser is any function that
rejects the empty string, as `time.Parse` does. -/
theorem C9_validate (parseTime : String → Bool) (hempty : parseTime "" = false)
    (r : IngestRequest) :
    (Validate parseTime r = none ↔
      (r.EventID ≠ "" ∧ r.EventType ≠ "" ∧ 0 < r.SchemaVersion ∧
        parseTime r.OccurredAt = true ∧ r.Payload ≠ none)) ∧
    (∀ e, Validate parseTime r = some e →
      e.Code = "VALIDATION_ERROR" ∧ e.HTTPStatus = 400) ∧
    (r.EventID = "" → Validate parseTime r = some (NewValidationError "event_id is required")) ∧
    (r.EventID ≠ "" → r.EventType = "" →
      Validate parseTime r = some (NewValidationError "event_type is required")) ∧
    (r.EventID ≠ "" → r.EventType ≠ "" → r.SchemaVersion ≤ 0 →
      Validate parseTime r = some (NewValidationError "schema_version must be positive")) ∧
    (r.EventID ≠ "" → r.EventType ≠ "" → 0 < r.SchemaVersion → parseTime r.OccurredAt = false →
      (Validate parseTime r = some (NewValidationError "occurred_at is required") ∨
        Validate parseTime r =
          some (NewValidationError "occurred_at must be in RFC3339 format"))) ∧
    (r.EventID ≠ "" → r.EventType ≠ "" → 0 < r.SchemaVersion → parseTime r.OccurredAt = true →
      r.Payload = none → Validate parseTime r = some (NewValidationError "payload is required"))
    := by
  have hocc : parseTime r.OccurredAt = true → r.OccurredAt ≠ "" := by
    intro h h0
    rw [h0, hempty] at h
    exact Bool.noConfusion h
  refine ⟨?_, ?_, ?_, ?_, ?_, ?_, ?_⟩
  · unfold Validate
    constructor
    · intro h
      split_ifs at h with h1 h2 h3 h4 h5 h6
      refine ⟨h1, h2, by omega, ?_, h6⟩
      simpa using h5
    · rintro ⟨h1, h2, h3, h4, h5⟩
      have h3n : ¬ r.SchemaVersion ≤ 0 := by omega
      simp [h1, h2, h3n, hocc h4, h4, h5]
  · intro e h
    unfold Validate at h
    split_ifs at h <;> cases h <;> exact ⟨rfl, rfl⟩
  · intro h1
    simp [Validate, h1]
  · intro h1 h2
    simp [Validate, h1, h2]
  · intro h1 h2 h3
    simp [Validate, h1, h2, h3]
  · intro h1 h2 h3 h4
    have h3n : ¬ r.SchemaVersion ≤ 0 := by omega
    by_cases h0 : r.OccurredAt = ""
    · left
      simp [Validate, h1, h2, h3n, h0]
    · right
      simp [Validate, h1, h2, h3n, h0, h4]
  · intro h1 h2 h3 h4 h5
    have h3n : ¬ r.SchemaVersion ≤ 0 := by omega
    simp [Validate, h1, h2, h3n, hocc h4, h4, h5]

/-- C9, at the sample event: with the RFC 3339 grammar as parser, `event_id=e1,
event_type=click, schema_version=1, occurred_at=2024-01-01T00:00:00Z, payload={}` is accepted. -/
theorem C9_validate_witness :
    parseRFC3339 "" = false ∧ Validate parseRFC3339 sampleEvent = none :=
  ⟨by decide,
    (C9_validate parseRFC3339 (by decide) sampleEvent).1.mpr (by decide)⟩

/-- C8.  `authMiddleware` hands the request to the next stage, with the tenant identity of the
presented X-API-Key in the context, when the header is non-empty and a key of the map; for a
missing, empty or unknown credential it answers 401 UNAUTHORIZED whatever the next stage is, and
leaves the world untouched, so that no later stage has run.  An empty credential is rejected
even when the map has an entry for the empty string. -/
theorem C8_auth (parseTime : String → Bool) (cfg : Config) (next : Handler) (env : Env)
    (r : Request) (w : World) :
    (∀ tenant, r.HeaderGet "X-API-Key" ≠ "" →
      cfg.APIKeys.lookup (r.HeaderGet "X-API-Key") = some tenant →
        authMiddleware cfg next env r w = next env { r with ctxTenantID := some tenant } w ∧
        GetTenantID ({ r with ctxTenantID := some tenant } : Request).ctxTenantID = tenant) ∧
    ((r.HeaderGet "X-API-Key" = "" ∨ cfg.APIKeys.lookup (r.HeaderGet "X-API-Key") = none) →
      ∃ message,
        authMiddleware cfg next env r w =
          (⟨401, .error ⟨⟨"UNAUTHORIZED", message⟩⟩⟩, w) ∧
        NewRouter parseTime cfg env r w =
          (⟨401, .error ⟨⟨"UNAUTHORIZED", message⟩⟩⟩, w)) ∧
    (r.HeaderGet "X-API-Key" = "" → ∀ tenant, cfg.APIKeys.lookup "" = some tenant →
      authMiddleware cfg next env r w =
        (⟨401, .error ⟨⟨"UNAUTHORIZED", "X-API-Key header is required"⟩⟩⟩, w)) := by
  refine ⟨?_, ?_, ?_⟩
  · intro tenant hkey hlook
    simp [authMiddleware, hkey, hlook, GetTenantID]
  · rintro (hkey | hlook)
    · exact ⟨"X-API-Key header is required", by
        simp [authMiddleware, hkey, RespondError, RespondJSON, NewUnauthorizedError,
          ErrorCodeUnauthorized, StatusUnauthorized], by
        simp [NewRouter, loggingMiddleware, authMiddleware, hkey, RespondError, RespondJSON,
          NewUnauthorizedError, ErrorCodeUnauthorized, StatusUnauthorized]⟩
    · by_cases hkey : r.HeaderGet "X-API-Key" = ""
      · exact ⟨"X-API-Key header is required", by
          simp [authMiddleware, hkey, RespondError, RespondJSON, NewUnauthorizedError,
            ErrorCodeUnauthorized, StatusUnauthorized], by
          simp [NewRouter, loggingMiddleware, authMiddleware, hkey, RespondError, RespondJSON,
            NewUnauthorizedError, ErrorCodeUnauthorized, StatusUnauthorized]⟩
      · exact ⟨"Invalid API key", by
          simp [authMiddleware, hkey, hlook, RespondError, RespondJSON, NewUnauthorizedError,
            ErrorCodeUnauthorized, StatusUnauthorized], by
          simp [NewRouter, loggingMiddleware, authMiddleware, hkey, hlook, RespondError,
            RespondJSON, NewUnauthorizedError, ErrorCodeUnauthorized, StatusUnauthorized]⟩
  · intro hkey tenant _
    simp [authMiddleware, hkey, RespondError, RespondJSON, NewUnauthorizedError,
      ErrorCodeUnauthorized, StatusUnauthorized]

/-- C8, at sample data: key_a resolves to tenant_a and the request is handed on; with a map that
has an entry for the empty string, a request without credential is still answered 401. -/
theorem C8_auth_witness :
    (sampleRequest "k1").HeaderGet "X-API-Key" ≠ "" ∧
    sampleConfig.APIKeys.lookup ((sampleRequest "k1").HeaderGet "X-API-Key") = some "tenant_a" ∧
    authMiddleware sampleConfig (IngestEvent parseRFC3339 sampleConfig) (sampleEnv "r1")
        (sampleRequest "k1") emptyWorld =
      IngestEvent parseRFC3339 sampleConfig (sampleEnv "r1")
        { sampleRequest "k1" with ctxTenantID := some "tenant_a" } emptyWorld ∧
    authMiddleware { sampleConfig with APIKeys := [("", "tenant_x")] }
        (IngestEvent parseRFC3339 sampleConfig) (sampleEnv "r1")
        { Header := [], Body := some sampleEvent, ctxTenantID := none } emptyWorld =
      (⟨401, .error ⟨⟨"UNAUTHORIZED", "X-API-Key header is required"⟩⟩⟩, emptyWorld) :=
  ⟨by decide, by decide,
    ((C8_auth parseRFC3339 sampleConfig (IngestEvent parseRFC3339 sampleConfig) (sampleEnv "r1")
      (sampleRequest "k1") emptyWorld).1 "tenant_a" (by decide) (by decide)).1,
    (C8_auth parseRFC3339 { sampleConfig with APIKeys := [("", "tenant_x")] }
      (IngestEvent parseRFC3339 sampleConfig) (sampleEnv "r1")
      { Header := [], Body := some sampleEvent, ctxTenantID := none } emptyWorld).2.2
      (by decide) "tenant_x" (by decide)⟩

@[simp] theorem publishCalls_append_incr (w : World) (rd : List (String × Int))
    (tp : List KafkaEventWrapper) (key : String) :
    publishCalls { redis := rd, topic := tp, calls := w.calls ++ [Call.Incr key] } =
      publishCalls w := by
  simp [publishCalls, List.filter_append]

@[simp] theorem publishCalls_append_expire (w : World) (rd : List (String × Int))
    (tp : List KafkaEventWrapper) (key : String) (n : Nat) :
    publishCalls { redis := rd, topic := tp, calls := w.calls ++ [Call.Expire key n] } =
      publishCalls w := by
  simp [publishCalls, List.filter_append]

@[simp] theorem publishCalls_append_setNX (w : World) (rd : List (String × Int))
    (tp : List KafkaEventWrapper) (key : String) (v t : Int) :
    publishCalls { redis := rd, topic := tp, calls := w.calls ++ [Call.SetNX key v t] } =
      publishCalls w := by
  simp [publishCalls, List.filter_append]

@[simp] theorem publishCalls_append_send (w : World) (rd : List (String × Int))
    (tp : List KafkaEventWrapper) (t : String) (m : KafkaEventWrapper) :
    publishCalls { redis := rd, topic := tp, calls := w.calls ++ [Call.SendMessage t m] } =
      publishCalls w + 1 := by
  simp [publishCalls, List.filter_append]

/-- A duplicate: with idempotency on, a working store and a record for the pair, `IngestEvent`
answers 202 duplicate=true after the one `SetNX` call. -/
theorem IngestEvent_duplicate (parseTime : String → Bool) (cfg : Config) (env : Env)
    (r : Request) (w : World) (req : IngestRequest) (v : Int)
    (htne : GetTenantID r.ctxTenantID ≠ "") (hb : r.Body = some req)
    (hv : Validate parseTime req = none) (hk : r.HeaderGet "Idempotency-Key" ≠ "")
    (hi : cfg.IdempotencyEnabled = true) (hf : env.setNXFails = false)
    (hl : w.redis.lookup
      (idemKey (GetTenantID r.ctxTenantID) (r.HeaderGet "Idempotency-Key")) = some v) :
    IngestEvent parseTime cfg env r w =
      (⟨202, .ingest ⟨"accepted", env.requestID, true⟩⟩,
        { w with calls := w.calls ++ [Call.SetNX
            (idemKey (GetTenantID r.ctxTenantID) (r.HeaderGet "Idempotency-Key")) 1
            cfg.IdempotencyTTL] }) := by
  simp [IngestEvent, htne, hb, hv, hk, hi, hf, hl, CheckIdempotency, redisSetNX, RespondJSON,
    StatusAccepted]

/-- Not a duplicate: with idempotency off, or a failing `SetNX`, or no record for the pair,
`IngestEvent` calls the broker once and answers by the outcome of that call. -/
theorem IngestEvent_publish (parseTime : String → Bool) (cfg : Config) (env : Env)
    (r : Request) (w : World) (req : IngestRequest)
    (htne : GetTenantID r.ctxTenantID ≠ "") (hb : r.Body = some req)
    (hv : Validate parseTime req = none) (hk : r.HeaderGet "Idempotency-Key" ≠ "")
    (hnew : cfg.IdempotencyEnabled = false ∨ env.setNXFails = true ∨
      w.redis.lookup
        (idemKey (GetTenantID r.ctxTenantID) (r.HeaderGet "Idempotency-Key")) = none) :
    IngestEvent parseTime cfg env r w =
      (if env.sendFails = true then
          ⟨500, .error ⟨⟨"INTERNAL_ERROR", "Failed to publish event"⟩⟩⟩
        else ⟨202, .ingest ⟨"accepted", env.requestID, false⟩⟩,
        { redis :=
            if cfg.IdempotencyEnabled = true ∧ env.setNXFails = false then
              (idemKey (GetTenantID r.ctxTenantID) (r.HeaderGet "Idempotency-Key"), 1) :: w.redis
            else w.redis
          topic :=
            if env.sendFails = true then w.topic
            else w.topic ++ [⟨GetTenantID r.ctxTenantID, env.receivedAt, env.requestID,
              r.HeaderGet "Idempotency-Key", req⟩]
          calls :=
            (if cfg.IdempotencyEnabled = true then
              w.calls ++ [Call.SetNX
                (idemKey (GetTenantID r.ctxTenantID) (r.HeaderGet "Idempotency-Key")) 1
                cfg.IdempotencyTTL]
            else w.calls) ++
            [Call.SendMessage "events.raw" ⟨GetTenantID r.ctxTenantID, env.receivedAt,
              env.requestID, r.HeaderGet "Idempotency-Key", req⟩] }) := by
  cases hi : cfg.IdempotencyEnabled <;> cases hf : env.setNXFails <;>
    cases hs : env.sendFails <;>
    rcases hnew with h | h | h <;>
    simp_all [-List.lookup_eq_none_iff, IngestEvent, CheckIdempotency, redisSetNX,
      PublishRawEvent, RespondJSON, RespondError, NewInternalError, ErrorCodeInternal,
      StatusInternalServerError, StatusAccepted, TopicRawEvents]

/-- A request without tenant, with an undecodable or invalid body, or without token is answered
by `IngestEvent` with an error, and the world stays as it was. -/
theorem IngestEvent_rejected (parseTime : String → Bool) (cfg : Config) (env : Env)
    (r : Request) (w : World)
    (h : GetTenantID r.ctxTenantID = "" ∨ r.Body = none ∨
      (∃ req e, r.Body = some req ∧ Validate parseTime req = some e) ∨
      r.HeaderGet "Idempotency-Key" = "") :
    (IngestEvent parseTime cfg env r w).2 = w ∧
    ∃ code message, (code = "INTERNAL_ERROR" ∨ code = "VALIDATION_ERROR") ∧
      (IngestEvent parseTime cfg env r w).1 =
        ⟨if code = "INTERNAL_ERROR" then 500 else 400, .error ⟨⟨code, message⟩⟩⟩ ∧
      (GetTenantID r.ctxTenantID ≠ "" → code = "VALIDATION_ERROR") := by
  by_cases ht : GetTenantID r.ctxTenantID = ""
  · refine ⟨by simp [IngestEvent, ht], "INTERNAL_ERROR", "Tenant ID not found", Or.inl rfl, ?_,
      fun h0 => absurd ht h0⟩
    simp [IngestEvent, ht, RespondError, RespondJSON, NewInternalError, ErrorCodeInternal,
      StatusInternalServerError]
  · cases hb : r.Body with
    | none =>
      refine ⟨by simp [IngestEvent, ht, hb], "VALIDATION_ERROR", "Invalid JSON payload",
        Or.inr rfl, ?_, fun _ => rfl⟩
      simp [IngestEvent, ht, hb, RespondError, RespondJSON, NewValidationError,
        ErrorCodeValidation, StatusBadRequest]
    | some req =>
      cases hv : Validate parseTime req with
      | some e =>
        have hc : e.Code = "VALIDATION_ERROR" ∧ e.HTTPStatus = 400 := by
          unfold Validate at hv
          split_ifs at hv <;> cases hv <;> exact ⟨rfl, rfl⟩
        refine ⟨by simp [IngestEvent, ht, hb, hv], "VALIDATION_ERROR", e.Message, Or.inr rfl,
          ?_, fun _ => rfl⟩
        simp [IngestEvent, ht, hb, hv, RespondError, RespondJSON, hc.1, hc.2]
      | none =>
        have hk : r.HeaderGet "Idempotency-Key" = "" := by
          rcases h with h | h | ⟨req2, e, h1, h2⟩ | h
          · exact absurd h ht
          · rw [hb] at h
            cases h
          · rw [hb] at h1
            cases h1
            rw [hv] at h2
            cases h2
          · exact h
        refine ⟨by simp [IngestEvent, ht, hb, hv, hk], "VALIDATION_ERROR",
          "Idempotency-Key header is required", Or.inr rfl, ?_, fun _ => rfl⟩
        simp [IngestEvent, ht, hb, hv, hk, RespondError, RespondJSON, NewValidationError,
          ErrorCodeValidation, StatusBadRequest]

/-- C4.  When `IngestEvent` reaches the publish step (it makes a call to the broker) and the
call fails, the response is 500 INTERNAL_ERROR and nothing is added to the topic; a 202
response with duplicate=false is written only after a call to the broker that succeeded. -/
theorem C4_publish_failure (parseTime : String → Bool) (cfg : Config) (env : Env) (r : Request)
    (w : World) :
    (env.sendFails = true →
      publishCalls (IngestEvent parseTime cfg env r w).2 ≠ publishCalls w →
        (IngestEvent parseTime cfg env r w).1 =
          ⟨500, .error ⟨⟨"INTERNAL_ERROR", "Failed to publish event"⟩⟩⟩ ∧
        (IngestEvent parseTime cfg env r w).2.topic = w.topic) ∧
    (env.sendFails = true → (IngestEvent parseTime cfg env r w).1.statusCode = 202 →
      ∃ requestID, (IngestEvent parseTime cfg env r w).1.body =
        .ingest ⟨"accepted", requestID, true⟩) ∧
    (∀ status requestID,
      (IngestEvent parseTime cfg env r w).1 = ⟨202, .ingest ⟨status, requestID, false⟩⟩ →
        env.sendFails = false ∧
        publishCalls (IngestEvent parseTime cfg env r w).2 = publishCalls w + 1 ∧
        ∃ msg, (IngestEvent parseTime cfg env r w).2.topic = w.topic ++ [msg]) := by
  by_cases hrej : GetTenantID r.ctxTenantID = "" ∨ r.Body = none ∨
      (∃ req e, r.Body = some req ∧ Validate parseTime req = some e) ∨
      r.HeaderGet "Idempotency-Key" = ""
  · obtain ⟨hw, code, message, hcode, hresp, _⟩ :=
      IngestEvent_rejected parseTime cfg env r w hrej
    rw [hw, hresp]
    refine ⟨fun _ h => absurd rfl h, ?_, ?_⟩
    · rcases hcode with h | h <;> simp [h]
    · intro status requestID h
      simp at h
  · simp only [not_or] at hrej
    obtain ⟨htne, hb, hv, hk⟩ := hrej
    obtain ⟨req, hb⟩ : ∃ req, r.Body = some req := by
      cases hb2 : r.Body with
      | none => exact absurd hb2 hb
      | some req => exact ⟨req, rfl⟩
    have hv : Validate parseTime req = none := by
      cases hv2 : Validate parseTime req with
      | none => rfl
      | some e => exact absurd ⟨req, e, hb, hv2⟩ hv
    by_cases hdup : cfg.IdempotencyEnabled = true ∧ env.setNXFails = false ∧
        ∃ v, w.redis.lookup
          (idemKey (GetTenantID r.ctxTenantID) (r.HeaderGet "Idempotency-Key")) = some v
    · obtain ⟨hi, hf, v, hl⟩ := hdup
      rw [IngestEvent_duplicate parseTime cfg env r w req v htne hb hv hk hi hf hl]
      refine ⟨fun _ h => absurd (by simp) h, fun _ _ => ⟨env.requestID, rfl⟩, ?_⟩
      intro status requestID h
      simp at h
    · have hnew : cfg.IdempotencyEnabled = false ∨ env.setNXFails = true ∨
          w.redis.lookup
            (idemKey (GetTenantID r.ctxTenantID) (r.HeaderGet "Idempotency-Key")) = none := by
        cases hi : cfg.IdempotencyEnabled with
        | false => exact Or.inl rfl
        | true =>
          cases hf : env.setNXFails with
          | true => exact Or.inr (Or.inl rfl)
          | false =>
            cases hl : w.redis.lookup
                (idemKey (GetTenantID r.ctxTenantID) (r.HeaderGet "Idempotency-Key")) with
            | none => exact Or.inr (Or.inr rfl)
            | some v => exact absurd ⟨hi, hf, v, hl⟩ hdup
      rw [IngestEvent_publish parseTime cfg env r w req htne hb hv hk hnew]
      refine ⟨?_, ?_, ?_⟩
      · intro hs _
        simp [hs]
      · intro hs h
        simp [hs] at h
      · intro status requestID h
        cases hs : env.sendFails with
        | true => simp [hs] at h
        | false =>
          refine ⟨rfl, ?_, ⟨⟨GetTenantID r.ctxTenantID, env.receivedAt, env.requestID,
            r.HeaderGet "Idempotency-Key", req⟩, by simp⟩⟩
          cases hi : cfg.IdempotencyEnabled <;> simp [publishCalls, List.filter_append]

/-- C4 at the sample request of tenant_a with the broker failing: the handler calls the broker
and answers 500 INTERNAL_ERROR. -/
theorem C4_publish_failure_witness :
    ({ sampleEnv "r1" with sendFails := true } : Env).sendFails = true ∧
    publishCalls (IngestEvent parseRFC3339 sampleConfig { sampleEnv "r1" with sendFails := true }
        { sampleRequest "k1" with ctxTenantID := some "tenant_a" } emptyWorld).2 ≠
      publishCalls emptyWorld ∧
    (IngestEvent parseRFC3339 sampleConfig { sampleEnv "r1" with sendFails := true }
        { sampleRequest "k1" with ctxTenantID := some "tenant_a" } emptyWorld).1 =
      ⟨500, .error ⟨⟨"INTERNAL_ERROR", "Failed to publish event"⟩⟩⟩ :=
  ⟨by decide, by decide,
    ((C4_publish_failure parseRFC3339 sampleConfig { sampleEnv "r1" with sendFails := true }
      { sampleRequest "k1" with ctxTenantID := some "tenant_a" } emptyWorld).1
      (by decide) (by decide)).1⟩

/-! ### Store keys -/

theorem eq_of_append_sep_eq (sep : Char) :
    ∀ (l1 l2 r1 r2 : List Char), sep ∉ l1 → sep ∉ l2 →
      l1 ++ sep :: r1 = l2 ++ sep :: r2 → l1 = l2 ∧ r1 = r2
  | [], [], _, _, _, _, h => by simpa using h
  | [], c :: l2, _, _, _, h2, h => by
    simp at h
    simp [h.1] at h2
  | c :: l1, [], _, _, h1, _, h => by
    simp at h
    simp [h.1] at h1
  | c :: l1, d :: l2, r1, r2, h1, h2, h => by
    simp at h
    simp at h1 h2
    obtain ⟨hl, hr⟩ := eq_of_append_sep_eq sep l1 l2 r1 r2 h1.2 h2.2 h.2
    exact ⟨by rw [h.1, hl], hr⟩

theorem idemKey_inj (t1 t2 k1 k2 : String) (h1 : ':' ∉ t1.data) (h2 : ':' ∉ t2.data)
    (h : idemKey t1 k1 = idemKey t2 k2) : t1 = t2 ∧ k1 = k2 := by
  have hd := congrArg String.data h
  simp only [idemKey, String.data_append, List.append_assoc] at hd
  have hd2 := List.append_cancel_left hd
  obtain ⟨ht, hk⟩ := eq_of_append_sep_eq ':' _ _ _ _ h1 h2 hd2
  exact ⟨String.ext ht, String.ext hk⟩

theorem rateKey_inj (t1 t2 b1 b2 : String) (h1 : ':' ∉ t1.data) (h2 : ':' ∉ t2.data)
    (h : rateKey t1 b1 = rateKey t2 b2) : t1 = t2 ∧ b1 = b2 := by
  have hd := congrArg String.data h
  simp only [rateKey, String.data_append, List.append_assoc] at hd
  have hd2 := List.append_cancel_left hd
  obtain ⟨ht, hb⟩ := eq_of_append_sep_eq ':' _ _ _ _ h1 h2 hd2
  exact ⟨String.ext ht, String.ext hb⟩

theorem idemKey_ne_rateKey (t1 k t2 b : String) : idemKey t1 k ≠ rateKey t2 b := by
  intro h
  have hd := congrArg String.data h
  simp [idemKey, rateKey] at hd

theorem mem_of_mem_stringsTrimSpace (x : Char) (s : List Char)
    (h : x ∈ stringsTrimSpace s) : x ∈ s := by
  unfold stringsTrimSpace at h
  rw [List.mem_reverse] at h
  have h2 := (List.dropWhile_suffix isSpace).subset h
  rw [List.mem_reverse] at h2
  exact (List.dropWhile_suffix isSpace).subset h2

theorem stringsSplitN2_head (sep : Char) (s p0 p1 : List Char)
    (h : stringsSplitN2 sep s = [p0, p1]) : sep ∉ p0 := by
  unfold stringsSplitN2 at h
  split at h
  · simp at h
  · simp only [List.cons.injEq, and_true] at h
    intro hmem
    rw [← h.1] at hmem
    have := List.mem_takeWhile_imp hmem
    simp at this

theorem loadAPIKeys_fold_no_colon (pieces : List (List Char)) :
    ∀ m : List (String × String), (∀ k t, (k, t) ∈ m → ':' ∉ t.data) →
      ∀ k t, (k, t) ∈ pieces.foldl
        (fun m pair =>
          match stringsSplitN2 ':' (stringsTrimSpace pair) with
          | [p0, p1] =>
            let tenantID := String.mk (stringsTrimSpace p0)
            let apiKey := String.mk (stringsTrimSpace p1)
            (apiKey, tenantID) :: m
          | _ => m) m → ':' ∉ t.data := by
  induction pieces with
  | nil => intro m hm k t h; exact hm k t h
  | cons pair rest ih =>
    intro m hm k t h
    rw [List.foldl_cons] at h
    refine ih _ ?_ k t h
    intro k2 t2 h2
    split at h2
    · next p0 p1 heq =>
      rcases List.mem_cons.mp h2 with h3 | h3
      · cases h3
        intro hc
        exact stringsSplitN2_head ':' _ p0 p1 heq (mem_of_mem_stringsTrimSpace _ _ hc)
      · exact hm k2 t2 h3
    · exact hm k2 t2 h2

theorem loadAPIKeys_no_colon (apiKeysStr k t : String)
    (h : (k, t) ∈ loadAPIKeys apiKeysStr) : ':' ∉ t.data :=
  loadAPIKeys_fold_no_colon _ [] (fun _ _ h0 => by simp at h0) k t h

/-- C10.  Tenant isolation of the store keys.  Every tenant identity that `Load` puts in the
credential map is free of ':' (for the hard-coded pairs and for any other string of pairs); for
tenant identities free of ':' the dedup key determines tenant and token, and the rate key
determines tenant and bucket; no dedup key is a rate key.  Without the restriction on the
tenant identity the keys collide: tenant "a:b" with token "c" and tenant "a" with token "b:c"
share one dedup key. -/
theorem C10_tenant_isolation :
    (Load.toOption.map (fun cfg => cfg.APIKeys) =
      some [("key_b", "tenant_b"), ("key_a", "tenant_a")]) ∧
    (∀ apiKeysStr cfg, LoadFrom apiKeysStr = .ok cfg →
      ∀ k t, (k, t) ∈ cfg.APIKeys → ':' ∉ t.data) ∧
    (∀ t1 t2 k1 k2 : String, ':' ∉ t1.data → ':' ∉ t2.data →
      idemKey t1 k1 = idemKey t2 k2 → t1 = t2 ∧ k1 = k2) ∧
    (∀ t1 t2 b1 b2 : String, ':' ∉ t1.data → ':' ∉ t2.data →
      rateKey t1 b1 = rateKey t2 b2 → t1 = t2 ∧ b1 = b2) ∧
    (∀ t1 k t2 b : String, idemKey t1 k ≠ rateKey t2 b) ∧
    (idemKey "a:b" "c" = idemKey "a" "b:c" ∧ ("a:b" : String) ≠ "a") := by
  refine ⟨by decide, ?_, idemKey_inj, rateKey_inj, idemKey_ne_rateKey, by decide, by decide⟩
  intro apiKeysStr cfg h k t hmem
  unfold LoadFrom at h
  simp only at h
  split_ifs at h
  cases h
  exact loadAPIKeys_no_colon apiKeysStr k t hmem

/-- C10, at the two tenants of `Load`: their identities are free of ':', so equal dedup keys
mean equal tenants and tokens. -/
theorem C10_tenant_isolation_witness :
    ':' ∉ ("tenant_a" : String).data ∧ ':' ∉ ("tenant_b" : String).data ∧
    (idemKey "tenant_a" "k1" = idemKey "tenant_b" "k1" →
      ("tenant_a" : String) = "tenant_b" ∧ ("k1" : String) = "k1") ∧
    (∀ k t, (k, t) ∈ [("key_b", "tenant_b"), ("key_a", "tenant_a")] → ':' ∉ t.data) :=
  ⟨by decide, by decide,
    C10_tenant_isolation.2.2.1 "tenant_a" "tenant_b" "k1" "k1" (by decide) (by decide),
    C10_tenant_isolation.2.1 "tenant_a:key_a,tenant_b:key_b"
      { Port := "8080"
        RedisAddr := "localhost:6379"
        KafkaBrokers := ["localhost:9092"]
        RateLimitPerMin := 300
        IdempotencyTTL := 1800
        RateLimitEnabled := true
        IdempotencyEnabled := true
        APIKeys := [("key_b", "tenant_b"), ("key_a", "tenant_a")] } (by rfl)⟩

/-! ### The rate-limit stage -/

/-- With a working store `CheckRateLimit` writes the count plus one, sets the expiry on the
first count, and allows the request when the new count is within the limit. -/
theorem CheckRateLimit_working (env : Env) (tenant : String) (L : Int) (w : World)
    (h1 : env.incrFails = false) (h2 : env.expireFails = false) :
    CheckRateLimit env tenant L w =
      (.ok (decide ((w.redis.lookup (rateKey tenant env.minuteBucket)).getD 0 + 1 ≤ L)),
        { redis := (rateKey tenant env.minuteBucket,
            (w.redis.lookup (rateKey tenant env.minuteBucket)).getD 0 + 1) :: w.redis
          topic := w.topic
          calls := w.calls ++ Call.Incr (rateKey tenant env.minuteBucket) ::
            (if (w.redis.lookup (rateKey tenant env.minuteBucket)).getD 0 + 1 = 1 then
              [Call.Expire (rateKey tenant env.minuteBucket) 60] else []) }) := by
  unfold CheckRateLimit
  simp only [redisIncr, redisExpire, h1, h2]
  generalize (w.redis.lookup (rateKey tenant env.minuteBucket)).getD 0 = c
  by_cases hc : c + 1 = 1
  · obtain rfl : c = 0 := by omega
    by_cases hL : 1 ≤ L
    · have hlt : ¬ L < 1 := by omega
      simp [hL, hlt]
    · have hlt : L < 1 := by omega
      simp [hL, hlt]
  · by_cases hL : c + 1 ≤ L
    · have hlt : ¬ L < c + 1 := by omega
      simp [hc, hL, hlt]
    · have hlt : L < c + 1 := by omega
      simp [hc, hL, hlt]

theorem checkRateLimitAll_working (tenant bucket : String) (L : Int) :
    ∀ (envs : List Env) (w : World),
      (∀ e ∈ envs, e.minuteBucket = bucket ∧ e.incrFails = false ∧ e.expireFails = false) →
      (checkRateLimitAll tenant L envs w).1 =
        (List.range envs.length).map (fun (i : Nat) =>
          Except.ok (decide
            ((w.redis.lookup (rateKey tenant bucket)).getD 0 + (i : Int) + 1 ≤ L))) ∧
      ((checkRateLimitAll tenant L envs w).2.redis.lookup (rateKey tenant bucket)).getD 0 =
        (w.redis.lookup (rateKey tenant bucket)).getD 0 + (envs.length : Int) ∧
      (envs ≠ [] →
        ((checkRateLimitAll tenant L envs w).2.redis.lookup (rateKey tenant bucket)).isSome) ∧
      (checkRateLimitAll tenant L envs w).2.topic = w.topic := by
  intro envs
  induction envs with
  | nil => intro w _; simp [checkRateLimitAll]
  | cons e rest ih =>
    intro w h
    obtain ⟨hb, hi, he⟩ := h e (List.mem_cons_self _ _)
    have hrest := fun e2 h2 => h e2 (List.mem_cons_of_mem _ h2)
    have hstep := CheckRateLimit_working e tenant L w hi he
    rw [hb] at hstep
    obtain ⟨ih1, ih2, ih3, ih4⟩ := ih (CheckRateLimit e tenant L w).2 hrest
    simp only [checkRateLimitAll, List.length_cons]
    rw [hstep] at ih1 ih2 ih3 ih4 ⊢
    simp only [List.lookup_cons, beq_self_eq_true, Option.getD_some] at ih1 ih2 ih3 ih4
    refine ⟨?_, ?_, ?_, ih4⟩
    · rw [ih1, List.range_succ_eq_map, List.map_cons, List.map_map]
      simp only [Nat.cast_zero, add_zero, List.cons.injEq, true_and]
      apply List.map_congr_left
      intro i _
      simp only [Function.comp, Nat.cast_succ]
      congr 2
      ring_nf
    · rw [ih2]
      push_cast
      ring
    · intro _
      by_cases hr : rest = []
      · subst hr
        simp [checkRateLimitAll]
      · exact ih3 hr

/-- C3.  Starting from an absent counter, with a working store and inside one minute bucket,
the k-th call of `CheckRateLimit` is allowed exactly when k is at most the limit (for every
limit, so for every limit L >= 0), and after k calls the stored counter is k: every call, a
denied one included, adds exactly 1.  In the chain,
budget 2 and three distinct tokens give 202, 202 and 429 RATE_LIMITED, with two messages
published. -/
theorem C3_rate_limit_window (tenant bucket : String) (L : Int) (envs : List Env) (w : World)
    (habsent : w.redis.lookup (rateKey tenant bucket) = none)
    (hwork : ∀ e ∈ envs,
      e.minuteBucket = bucket ∧ e.incrFails = false ∧ e.expireFails = false) :
    (checkRateLimitAll tenant L envs w).1 =
      (List.range envs.length).map (fun (i : Nat) => Except.ok (decide ((i : Int) + 1 ≤ L))) ∧
    (envs ≠ [] →
      (checkRateLimitAll tenant L envs w).2.redis.lookup (rateKey tenant bucket) =
        some (envs.length : Int)) ∧
    (∀ (e : Env) (w1 : World), e.minuteBucket = bucket → e.incrFails = false →
      e.expireFails = false →
      (CheckRateLimit e tenant L w1).2.redis.lookup (rateKey tenant bucket) =
        some ((w1.redis.lookup (rateKey tenant bucket)).getD 0 + 1)) ∧
    ((serveAll (NewRouter parseRFC3339 sampleConfig)
        [(sampleEnv "r1", sampleRequest "k1"), (sampleEnv "r2", sampleRequest "k2"),
          (sampleEnv "r3", sampleRequest "k3")] emptyWorld).1 =
      [⟨202, .ingest ⟨"accepted", "r1", false⟩⟩, ⟨202, .ingest ⟨"accepted", "r2", false⟩⟩,
        ⟨429, .error ⟨⟨"RATE_LIMITED", "Rate limit exceeded: 2 requests per minute"⟩⟩⟩] ∧
     (serveAll (NewRouter parseRFC3339 sampleConfig)
        [(sampleEnv "r1", sampleRequest "k1"), (sampleEnv "r2", sampleRequest "k2"),
          (sampleEnv "r3", sampleRequest "k3")] emptyWorld).2.topic.length = 2) := by
  obtain ⟨h1, h2, h3, _⟩ := checkRateLimitAll_working tenant bucket L envs w hwork
  rw [habsent] at h1 h2
  simp only [Option.getD_none, zero_add] at h1 h2
  refine ⟨h1, ?_, ?_, by decide, by decide⟩
  · intro hne
    have hsome := h3 hne
    rw [Option.isSome_iff_exists] at hsome
    obtain ⟨v, hv⟩ := hsome
    rw [hv] at h2 ⊢
    simp only [Option.getD_some] at h2
    rw [h2]
  · intro e w1 hb hi he
    rw [CheckRateLimit_working e tenant L w1 hi he, hb]
    simp

/-- C3, at budget 2 with three calls from the empty keyspace: allowed, allowed, denied, and the
counter ends at 3. -/
theorem C3_rate_limit_window_witness :
    (checkRateLimitAll "tenant_a" 2 [sampleEnv "r1", sampleEnv "r2", sampleEnv "r3"]
        emptyWorld).1 = [.ok true, .ok true, .ok false] ∧
    (checkRateLimitAll "tenant_a" 2 [sampleEnv "r1", sampleEnv "r2", sampleEnv "r3"]
        emptyWorld).2.redis.lookup (rateKey "tenant_a" "2024-01-01T00:05") = some 3 :=
  have h := C3_rate_limit_window "tenant_a" "2024-01-01T00:05" 2
    [sampleEnv "r1", sampleEnv "r2", sampleEnv "r3"] emptyWorld (by decide) (by decide)
  ⟨h.1.trans (by decide), h.2.1 (by decide)⟩

/-! ### The chain -/

/-- The response of the rate-limit stage to a request over budget. -/
theorem rateLimitMiddleware_eq (cfg : Config) (next : Handler) (env : Env) (r : Request)
    (w : World) (ht : GetTenantID r.ctxTenantID ≠ "") :
    rateLimitMiddleware cfg next env r w =
      if (CheckRateLimit env (GetTenantID r.ctxTenantID) cfg.RateLimitPerMin w).1 = .ok false
      then
        (⟨429, .error ⟨⟨"RATE_LIMITED",
          "Rate limit exceeded: " ++ toString cfg.RateLimitPerMin ++ " requests per minute"⟩⟩⟩,
          (CheckRateLimit env (GetTenantID r.ctxTenantID) cfg.RateLimitPerMin w).2)
      else next env r (CheckRateLimit env (GetTenantID r.ctxTenantID) cfg.RateLimitPerMin w).2
    := by
  unfold rateLimitMiddleware
  simp only [ht, if_false]
  rcases hc : CheckRateLimit env (GetTenantID r.ctxTenantID) cfg.RateLimitPerMin w with
    ⟨res, w1⟩
  cases res with
  | error e => simp
  | ok allowed =>
    cases allowed <;>
      simp [RespondError, RespondJSON, NewRateLimitError, ErrorCodeRateLimited,
        StatusTooManyRequests]

/-- For a credential of the map the chain is the rate-limit stage, when enabled, around
`IngestEvent`, run with the tenant identity in the context. -/
theorem NewRouter_authenticated (parseTime : String → Bool) (cfg : Config) (env : Env)
    (r : Request) (w : World) (tenant : String)
    (hkey : r.HeaderGet "X-API-Key" ≠ "")
    (hlook : cfg.APIKeys.lookup (r.HeaderGet "X-API-Key") = some tenant) :
    NewRouter parseTime cfg env r w =
      if cfg.RateLimitEnabled = true then
        rateLimitMiddleware cfg (IngestEvent parseTime cfg) env
          { r with ctxTenantID := some tenant } w
      else IngestEvent parseTime cfg env { r with ctxTenantID := some tenant } w := by
  unfold NewRouter loggingMiddleware authMiddleware
  simp only [hkey, if_false, hlook]
  split_ifs <;> rfl

theorem lookup_cons_ne (k k2 : String) (v : Int) (l : List (String × Int)) (h : k ≠ k2) :
    List.lookup k ((k2, v) :: l) = List.lookup k l := by
  have hb : (k == k2) = false := by simpa using h
  rw [List.lookup_cons, hb]

theorem lookup_cons_self (k : String) (v : Int) (l : List (String × Int)) :
    List.lookup k ((k, v) :: l) = some v := by
  simp [List.lookup_cons]

/-- The world after `CheckRateLimit`, whatever the limit. -/
theorem CheckRateLimit_world (env : Env) (tenant : String) (L : Int) (w : World) :
    (CheckRateLimit env tenant L w).2 =
      if env.incrFails = true then
        { w with calls := w.calls ++ [Call.Incr (rateKey tenant env.minuteBucket)] }
      else
        { redis := (rateKey tenant env.minuteBucket,
            (w.redis.lookup (rateKey tenant env.minuteBucket)).getD 0 + 1) :: w.redis
          topic := w.topic
          calls := w.calls ++ Call.Incr (rateKey tenant env.minuteBucket) ::
            (if (w.redis.lookup (rateKey tenant env.minuteBucket)).getD 0 + 1 = 1 then
              [Call.Expire (rateKey tenant env.minuteBucket) 60] else []) } := by
  unfold CheckRateLimit
  simp only [redisIncr, redisExpire]
  generalize (w.redis.lookup (rateKey tenant env.minuteBucket)).getD 0 = c
  cases hi : env.incrFails
  · cases he : env.expireFails <;> simp only [Bool.false_eq_true, if_false, if_true] <;>
      split_ifs <;> simp
  · simp

/-- The rate-limit check touches nothing but its own counter: the topic, the calls to the
broker and every other key stay as they were, and the calls it adds are `Incr` and `Expire` on
its own key. -/
theorem CheckRateLimit_frame (env : Env) (tenant : String) (L : Int) (w : World) :
    (CheckRateLimit env tenant L w).2.topic = w.topic ∧
    publishCalls (CheckRateLimit env tenant L w).2 = publishCalls w ∧
    (∀ k, k ≠ rateKey tenant env.minuteBucket →
      (CheckRateLimit env tenant L w).2.redis.lookup k = w.redis.lookup k) ∧
    (∃ l, (CheckRateLimit env tenant L w).2.calls = w.calls ++ l ∧
      ∀ c ∈ l, c = Call.Incr (rateKey tenant env.minuteBucket) ∨
        c = Call.Expire (rateKey tenant env.minuteBucket) 60) := by
  have hw := CheckRateLimit_world env tenant L w
  cases hi : env.incrFails
  · rw [hi, if_neg (by simp)] at hw
    rw [hw]
    refine ⟨rfl, ?_, fun k hk => lookup_cons_ne k _ _ _ hk, _, rfl, ?_⟩
    · split_ifs <;> simp [publishCalls, List.filter_append]
    · intro c hc
      split_ifs at hc <;> simp at hc <;> tauto
  · rw [hi, if_pos rfl] at hw
    rw [hw]
    exact ⟨rfl, by simp [publishCalls, List.filter_append], fun k _ => rfl,
      [Call.Incr (rateKey tenant env.minuteBucket)], rfl, by simp⟩

/-- Whether the rate-limit check returns an error: the increment fails, or the counter was
absent or 0 and the expiry call fails. -/
theorem CheckRateLimit_error_iff (env : Env) (tenant : String) (L : Int) (w : World) :
    (∃ e, (CheckRateLimit env tenant L w).1 = .error e) ↔
      (env.incrFails = true ∨
        (env.expireFails = true ∧
          (w.redis.lookup (rateKey tenant env.minuteBucket)).getD 0 = 0)) := by
  unfold CheckRateLimit
  simp only [redisIncr, redisExpire]
  generalize (w.redis.lookup (rateKey tenant env.minuteBucket)).getD 0 = c
  cases hi : env.incrFails
  · cases he : env.expireFails <;> simp only [Bool.false_eq_true, if_false, if_true] <;>
      split_ifs <;> simp <;> omega
  · simp

/-- A request is either rejected by `IngestEvent` before the dedup stage, or it has a tenant, a
valid body and a token. -/
theorem rejected_or_valid (parseTime : String → Bool) (r : Request) :
    (GetTenantID r.ctxTenantID = "" ∨ r.Body = none ∨
      (∃ req e, r.Body = some req ∧ Validate parseTime req = some e) ∨
      r.HeaderGet "Idempotency-Key" = "") ∨
    (GetTenantID r.ctxTenantID ≠ "" ∧ r.HeaderGet "Idempotency-Key" ≠ "" ∧
      ∃ req, r.Body = some req ∧ Validate parseTime req = none) := by
  by_cases ht : GetTenantID r.ctxTenantID = ""
  · exact Or.inl (Or.inl ht)
  · by_cases hk : r.HeaderGet "Idempotency-Key" = ""
    · exact Or.inl (Or.inr (Or.inr (Or.inr hk)))
    · cases hb : r.Body with
      | none => exact Or.inl (Or.inr (Or.inl rfl))
      | some req =>
        cases hv : Validate parseTime req with
        | none => exact Or.inr ⟨ht, hk, req, rfl, hv⟩
        | some e => exact Or.inl (Or.inr (Or.inr (Or.inl ⟨req, e, rfl, hv⟩)))

/-- With idempotency on, a working `SetNX` and a record for the pair of the request,
`IngestEvent` neither publishes nor writes to the keyspace. -/
theorem IngestEvent_record_frame (parseTime : String → Bool) (cfg : Config) (env : Env)
    (r : Request) (w : World) (v : Int)
    (hi : cfg.IdempotencyEnabled = true) (hf : env.setNXFails = false)
    (hl : w.redis.lookup
      (idemKey (GetTenantID r.ctxTenantID) (r.HeaderGet "Idempotency-Key")) = some v) :
    (IngestEvent parseTime cfg env r w).2.topic = w.topic ∧
    publishCalls (IngestEvent parseTime cfg env r w).2 = publishCalls w ∧
    (IngestEvent parseTime cfg env r w).2.redis = w.redis := by
  rcases rejected_or_valid parseTime r with hrej | ⟨ht, hk, req, hb, hv⟩
  · rw [(IngestEvent_rejected parseTime cfg env r w hrej).1]
    exact ⟨rfl, rfl, rfl⟩
  · rw [IngestEvent_duplicate parseTime cfg env r w req v ht hb hv hk hi hf hl]
    exact ⟨rfl, by simp, rfl⟩

/-- The effects of one run of the chain on a request whose pair has a record, with idempotency
on and a working store. -/
theorem chain_record_frame (parseTime : String → Bool) (cfg : Config) (env : Env)
    (r : Request) (w : World) (tenant : String) (v : Int)
    (hkey : r.HeaderGet "X-API-Key" ≠ "")
    (hlook : cfg.APIKeys.lookup (r.HeaderGet "X-API-Key") = some tenant)
    (htne : tenant ≠ "")
    (hidem : cfg.IdempotencyEnabled = true)
    (hincr : env.incrFails = false) (hexp : env.expireFails = false)
    (hset : env.setNXFails = false)
    (hrec : w.redis.lookup (idemKey tenant (r.HeaderGet "Idempotency-Key")) = some v) :
    publishCalls (NewRouter parseTime cfg env r w).2 = publishCalls w ∧
    (NewRouter parseTime cfg env r w).2.topic = w.topic ∧
    (NewRouter parseTime cfg env r w).2.redis.lookup
      (idemKey tenant (r.HeaderGet "Idempotency-Key")) = some v ∧
    (cfg.RateLimitEnabled = true →
      (NewRouter parseTime cfg env r w).2.redis.lookup (rateKey tenant env.minuteBucket) =
        some ((w.redis.lookup (rateKey tenant env.minuteBucket)).getD 0 + 1)) ∧
    (cfg.RateLimitEnabled = false →
      (NewRouter parseTime cfg env r w).2.redis.lookup (rateKey tenant env.minuteBucket) =
        w.redis.lookup (rateKey tenant env.minuteBucket)) := by
  rw [NewRouter_authenticated parseTime cfg env r w tenant hkey hlook]
  have hctx : GetTenantID ({ r with ctxTenantID := some tenant } : Request).ctxTenantID =
      tenant := rfl
  have hhdr : ({ r with ctxTenantID := some tenant } : Request).HeaderGet "Idempotency-Key" =
      r.HeaderGet "Idempotency-Key" := rfl
  cases hrl : cfg.RateLimitEnabled
  · simp only [Bool.false_eq_true, if_false]
    obtain ⟨h1, h2, h3⟩ := IngestEvent_record_frame parseTime cfg env
      { r with ctxTenantID := some tenant } w v hidem hset (by rw [hctx, hhdr]; exact hrec)
    rw [h3]
    exact ⟨h2, h1, hrec, fun h => absurd h (by simp), fun _ => rfl⟩
  · simp only [if_true]
    rw [rateLimitMiddleware_eq cfg _ env _ w (by rw [hctx]; exact htne), hctx]
    obtain ⟨f1, f2, f3, _⟩ := CheckRateLimit_frame env tenant cfg.RateLimitPerMin w
    have hrec1 : (CheckRateLimit env tenant cfg.RateLimitPerMin w).2.redis.lookup
        (idemKey tenant (r.HeaderGet "Idempotency-Key")) = some v := by
      rw [f3 _ (idemKey_ne_rateKey _ _ _ _), hrec]
    have hcnt : (CheckRateLimit env tenant cfg.RateLimitPerMin w).2.redis.lookup
        (rateKey tenant env.minuteBucket) =
        some ((w.redis.lookup (rateKey tenant env.minuteBucket)).getD 0 + 1) := by
      rw [CheckRateLimit_working env tenant cfg.RateLimitPerMin w hincr hexp]
      exact lookup_cons_self _ _ _
    split_ifs
    · exact ⟨f2, f1, hrec1, fun _ => hcnt, fun h => absurd h (by simp)⟩
    · obtain ⟨h1, h2, h3⟩ := IngestEvent_record_frame parseTime cfg env
        { r with ctxTenantID := some tenant }
        (CheckRateLimit env tenant cfg.RateLimitPerMin w).2 v hidem hset
        (by rw [hctx, hhdr]; exact hrec1)
      rw [h1, h2, h3]
      exact ⟨f2, f1, hrec1, fun _ => hcnt, fun h => absurd h (by simp)⟩

/-- C2, as the code has it.  For an authenticated request whose (tenant, token) pair has a live
idempotency record, with idempotency on and a working store, the chain makes no call to the
publisher and leaves the record in place.  The rate-limit stage, when enabled, runs before the
dedup stage for every authenticated request, duplicates included: it raises the counter of the
tenant by exactly 1.  Only with rate limiting disabled is the counter left unchanged. -/
theorem C2_duplicate_request (parseTime : String → Bool) (cfg : Config) (env : Env)
    (r : Request) (w : World) (tenant : String) (v : Int)
    (hkey : r.HeaderGet "X-API-Key" ≠ "")
    (hlook : cfg.APIKeys.lookup (r.HeaderGet "X-API-Key") = some tenant)
    (htne : tenant ≠ "")
    (hidem : cfg.IdempotencyEnabled = true)
    (hincr : env.incrFails = false) (hexp : env.expireFails = false)
    (hset : env.setNXFails = false)
    (hrec : w.redis.lookup (idemKey tenant (r.HeaderGet "Idempotency-Key")) = some v) :
    publishCalls (NewRouter parseTime cfg env r w).2 = publishCalls w ∧
    (NewRouter parseTime cfg env r w).2.topic = w.topic ∧
    (NewRouter parseTime cfg env r w).2.redis.lookup
      (idemKey tenant (r.HeaderGet "Idempotency-Key")) = some v ∧
    (cfg.RateLimitEnabled = true →
      (NewRouter parseTime cfg env r w).2.redis.lookup (rateKey tenant env.minuteBucket) =
        some ((w.redis.lookup (rateKey tenant env.minuteBucket)).getD 0 + 1)) ∧
    (cfg.RateLimitEnabled = false →
      (NewRouter parseTime cfg env r w).2.redis.lookup (rateKey tenant env.minuteBucket) =
        w.redis.lookup (rateKey tenant env.minuteBucket)) :=
  chain_record_frame parseTime cfg env r w tenant v hkey hlook htne hidem hincr hexp hset hrec

/-- C2 fails as stated.  In a world in which tenant_a has a live record for token k1 and a
counter of 1 for the minute 2024-01-01T00:05, the chain run on a request with that token
changes the counter: it is 2 afterwards. -/
theorem C2_counterexample :
    List.lookup (idemKey "tenant_a" "k1")
        [("idem:tenant_a:k1", 1), ("rl:tenant_a:2024-01-01T00:05", 1)] = some 1 ∧
    List.lookup (rateKey "tenant_a" "2024-01-01T00:05")
        [("idem:tenant_a:k1", 1), ("rl:tenant_a:2024-01-01T00:05", 1)] = some 1 ∧
    (NewRouter parseRFC3339 sampleConfig (sampleEnv "r2") (sampleRequest "k1")
        { redis := [("idem:tenant_a:k1", 1), ("rl:tenant_a:2024-01-01T00:05", 1)]
          topic := []
          calls := [] }).2.redis.lookup (rateKey "tenant_a" "2024-01-01T00:05") = some 2 ∧
    (NewRouter parseRFC3339 sampleConfig (sampleEnv "r2") (sampleRequest "k1")
        { redis := [("idem:tenant_a:k1", 1), ("rl:tenant_a:2024-01-01T00:05", 1)]
          topic := []
          calls := [] }).2.redis.lookup (rateKey "tenant_a" "2024-01-01T00:05") ≠
      List.lookup (rateKey "tenant_a" "2024-01-01T00:05")
        [("idem:tenant_a:k1", 1), ("rl:tenant_a:2024-01-01T00:05", 1)] := by
  decide

/-- C2 at the sample request, from a world in which the token is claimed and the counter is 1:
nothing is published and the counter becomes 2. -/
theorem C2_duplicate_request_witness :
    publishCalls (NewRouter parseRFC3339 sampleConfig (sampleEnv "r2") (sampleRequest "k1")
        { redis := [("idem:tenant_a:k1", 1), ("rl:tenant_a:2024-01-01T00:05", 1)]
          topic := []
          calls := [] }).2 = 0 ∧
    (NewRouter parseRFC3339 sampleConfig (sampleEnv "r2") (sampleRequest "k1")
        { redis := [("idem:tenant_a:k1", 1), ("rl:tenant_a:2024-01-01T00:05", 1)]
          topic := []
          calls := [] }).2.redis.lookup (rateKey "tenant_a" "2024-01-01T00:05") =
      some (1 + 1) :=
  have h := C2_duplicate_request parseRFC3339 sampleConfig (sampleEnv "r2") (sampleRequest "k1")
    { redis := [("idem:tenant_a:k1", 1), ("rl:tenant_a:2024-01-01T00:05", 1)]
      topic := []
      calls := [] } "tenant_a" 1 (by decide) (by decide) (by decide) (by decide) (by decide)
    (by decide) (by decide) (by decide)
  ⟨h.1, h.2.2.2.1 (by decide)⟩

/-- C7, as the code has it.  For an authenticated request without Idempotency-Key header (or
with an empty one): `IngestEvent` answers VALIDATION_ERROR 400 and leaves the world untouched;
the chain performs no dedup set-if-absent and no publish.  With rate limiting disabled the
chain answers VALIDATION_ERROR 400 with no store operation at all.  With rate limiting enabled
the rate-limit stage has run before the handler: the world is the one `CheckRateLimit` leaves
(its increment, and the expiry call on the first count), and the answer is 429 RATE_LIMITED
when the check denies, VALIDATION_ERROR 400 otherwise. -/
theorem C7_missing_token (parseTime : String → Bool) (cfg : Config) (env : Env) (r : Request)
    (w : World) (tenant : String)
    (hkey : r.HeaderGet "X-API-Key" ≠ "")
    (hlook : cfg.APIKeys.lookup (r.HeaderGet "X-API-Key") = some tenant)
    (htne : tenant ≠ "")
    (htok : r.HeaderGet "Idempotency-Key" = "") :
    (∃ message, IngestEvent parseTime cfg env { r with ctxTenantID := some tenant } w =
      (⟨400, .error ⟨⟨"VALIDATION_ERROR", message⟩⟩⟩, w)) ∧
    (cfg.RateLimitEnabled = false → ∃ message, NewRouter parseTime cfg env r w =
      (⟨400, .error ⟨⟨"VALIDATION_ERROR", message⟩⟩⟩, w)) ∧
    (cfg.RateLimitEnabled = true →
      (NewRouter parseTime cfg env r w).2 =
        (CheckRateLimit env tenant cfg.RateLimitPerMin w).2 ∧
      ((CheckRateLimit env tenant cfg.RateLimitPerMin w).1 = .ok false →
        (NewRouter parseTime cfg env r w).1 = ⟨429, .error ⟨⟨"RATE_LIMITED",
          "Rate limit exceeded: " ++ toString cfg.RateLimitPerMin ++
            " requests per minute"⟩⟩⟩) ∧
      ((CheckRateLimit env tenant cfg.RateLimitPerMin w).1 ≠ .ok false →
        ∃ message, (NewRouter parseTime cfg env r w).1 =
          ⟨400, .error ⟨⟨"VALIDATION_ERROR", message⟩⟩⟩)) ∧
    ((NewRouter parseTime cfg env r w).2.topic = w.topic ∧
      publishCalls (NewRouter parseTime cfg env r w).2 = publishCalls w ∧
      ∃ l, (NewRouter parseTime cfg env r w).2.calls = w.calls ++ l ∧
        ∀ c ∈ l, c = Call.Incr (rateKey tenant env.minuteBucket) ∨
          c = Call.Expire (rateKey tenant env.minuteBucket) 60) := by
  have hctx : GetTenantID ({ r with ctxTenantID := some tenant } : Request).ctxTenantID =
      tenant := rfl
  have hhandler : ∀ w1 : World, ∃ message,
      IngestEvent parseTime cfg env { r with ctxTenantID := some tenant } w1 =
        (⟨400, .error ⟨⟨"VALIDATION_ERROR", message⟩⟩⟩, w1) := by
    intro w1
    obtain ⟨hw, code, message, _, hresp, hcode⟩ :=
      IngestEvent_rejected parseTime cfg env { r with ctxTenantID := some tenant } w1
        (Or.inr (Or.inr (Or.inr htok)))
    have hc := hcode (by rw [hctx]; exact htne)
    subst hc
    refine ⟨message, Prod.ext ?_ hw⟩
    rw [hresp]
    simp
  rw [NewRouter_authenticated parseTime cfg env r w tenant hkey hlook]
  cases hrl : cfg.RateLimitEnabled
  · simp only [Bool.false_eq_true, if_false]
    obtain ⟨message, hm⟩ := hhandler w
    rw [hm]
    exact ⟨⟨message, rfl⟩, fun _ => ⟨message, rfl⟩, fun h => absurd h (by simp), rfl, rfl,
      [], by simp, by simp⟩
  · simp only [if_true]
    rw [rateLimitMiddleware_eq cfg _ env _ w (by rw [hctx]; exact htne), hctx]
    obtain ⟨f1, f2, _, f4⟩ := CheckRateLimit_frame env tenant cfg.RateLimitPerMin w
    obtain ⟨message, hm⟩ := hhandler (CheckRateLimit env tenant cfg.RateLimitPerMin w).2
    rw [hm]
    refine ⟨hhandler w, fun h => absurd h (by simp), fun _ => ⟨?_, ?_, ?_⟩, ?_⟩
    · split_ifs <;> rfl
    · intro hd
      rw [if_pos hd]
    · intro hd
      rw [if_neg hd]
      exact ⟨message, rfl⟩
    · split_ifs <;> exact ⟨f1, f2, f4⟩

/-- C7 fails as stated.  With the rate limiter on, a request of tenant_a without
Idempotency-Key is answered 400 only after the counter was incremented and its expiry set; and
once the budget of 2 is used up the same request is answered 429, not 400. -/
theorem C7_counterexample :
    NewRouter parseRFC3339 sampleConfig (sampleEnv "r1")
        { Header := [("X-API-Key", "key_a")], Body := some sampleEvent, ctxTenantID := none }
        emptyWorld =
      (⟨400, .error ⟨⟨"VALIDATION_ERROR", "Idempotency-Key header is required"⟩⟩⟩,
        { redis := [("rl:tenant_a:2024-01-01T00:05", 1)]
          topic := []
          calls := [Call.Incr "rl:tenant_a:2024-01-01T00:05",
            Call.Expire "rl:tenant_a:2024-01-01T00:05" 60] }) ∧
    storeCalls (NewRouter parseRFC3339 sampleConfig (sampleEnv "r1")
        { Header := [("X-API-Key", "key_a")], Body := some sampleEvent, ctxTenantID := none }
        emptyWorld).2 ≠ storeCalls emptyWorld ∧
    (NewRouter parseRFC3339 sampleConfig (sampleEnv "r3")
        { Header := [("X-API-Key", "key_a")], Body := some sampleEvent, ctxTenantID := none }
        { redis := [("rl:tenant_a:2024-01-01T00:05", 2)], topic := [], calls := [] }).1 =
      ⟨429, .error ⟨⟨"RATE_LIMITED", "Rate limit exceeded: 2 requests per minute"⟩⟩⟩ := by
  decide

/-- C7 at a request of tenant_a without token, rate limiter on, empty world: the world
afterwards is the one the rate-limit check leaves, and nothing was published. -/
theorem C7_missing_token_witness :
    (NewRouter parseRFC3339 sampleConfig (sampleEnv "r1")
        { Header := [("X-API-Key", "key_a")], Body := some sampleEvent, ctxTenantID := none }
        emptyWorld).2 = (CheckRateLimit (sampleEnv "r1") "tenant_a" 2 emptyWorld).2 ∧
    publishCalls (NewRouter parseRFC3339 sampleConfig (sampleEnv "r1")
        { Header := [("X-API-Key", "key_a")], Body := some sampleEvent, ctxTenantID := none }
        emptyWorld).2 = publishCalls emptyWorld :=
  have h := C7_missing_token parseRFC3339 sampleConfig (sampleEnv "r1")
    { Header := [("X-API-Key", "key_a")], Body := some sampleEvent, ctxTenantID := none }
    emptyWorld "tenant_a" (by decide) (by decide) (by decide) (by decide)
  ⟨(h.2.2.1 (by decide)).1, h.2.2.2.2.1⟩

/-- The effects of `IngestEvent` on a request that is not resolved as a duplicate: one call to
the broker, and the message on the topic exactly when the call succeeds. -/
theorem IngestEvent_publish_frame (parseTime : String → Bool) (cfg : Config) (env : Env)
    (r : Request) (w : World) (req : IngestRequest)
    (htne : GetTenantID r.ctxTenantID ≠ "") (hb : r.Body = some req)
    (hv : Validate parseTime req = none) (hk : r.HeaderGet "Idempotency-Key" ≠ "")
    (hnew : cfg.IdempotencyEnabled = false ∨ env.setNXFails = true ∨
      w.redis.lookup
        (idemKey (GetTenantID r.ctxTenantID) (r.HeaderGet "Idempotency-Key")) = none) :
    publishCalls (IngestEvent parseTime cfg env r w).2 = publishCalls w + 1 ∧
    (IngestEvent parseTime cfg env r w).1 =
      (if env.sendFails = true then
        ⟨500, .error ⟨⟨"INTERNAL_ERROR", "Failed to publish event"⟩⟩⟩
      else ⟨202, .ingest ⟨"accepted", env.requestID, false⟩⟩) ∧
    (IngestEvent parseTime cfg env r w).2.topic =
      (if env.sendFails = true then w.topic
      else w.topic ++ [⟨GetTenantID r.ctxTenantID, env.receivedAt, env.requestID,
        r.HeaderGet "Idempotency-Key", req⟩]) := by
  rw [IngestEvent_publish parseTime cfg env r w req htne hb hv hk hnew]
  refine ⟨?_, rfl, rfl⟩
  cases hi : cfg.IdempotencyEnabled <;> simp [publishCalls, List.filter_append]

/-- C5, as the code has it.  When the publisher fails for a request whose token was newly
claimed (idempotency on, working store, no record before), the response is 500 INTERNAL_ERROR,
nothing is on the topic, and the idempotency record written before the publish attempt is still
there when the request ends: nothing deletes it.  A retry with the same token that reaches the
handler while the record is live is resolved as a duplicate, 202 with duplicate=true, and makes
no call to the publisher. -/
theorem C5_publish_failure_keeps_record (parseTime : String → Bool) (cfg : Config) (env : Env)
    (r : Request) (w : World) (req : IngestRequest)
    (htne : GetTenantID r.ctxTenantID ≠ "") (hb : r.Body = some req)
    (hv : Validate parseTime req = none) (hk : r.HeaderGet "Idempotency-Key" ≠ "")
    (hidem : cfg.IdempotencyEnabled = true) (hset : env.setNXFails = false)
    (hnone : w.redis.lookup
      (idemKey (GetTenantID r.ctxTenantID) (r.HeaderGet "Idempotency-Key")) = none)
    (hsend : env.sendFails = true) :
    (IngestEvent parseTime cfg env r w).1 =
      ⟨500, .error ⟨⟨"INTERNAL_ERROR", "Failed to publish event"⟩⟩⟩ ∧
    (IngestEvent parseTime cfg env r w).2.topic = w.topic ∧
    (IngestEvent parseTime cfg env r w).2.redis.lookup
      (idemKey (GetTenantID r.ctxTenantID) (r.HeaderGet "Idempotency-Key")) = some 1 ∧
    (∀ (retryEnv : Env) (w2 : World), retryEnv.setNXFails = false →
      w2.redis.lookup
          (idemKey (GetTenantID r.ctxTenantID) (r.HeaderGet "Idempotency-Key")) =
        (IngestEvent parseTime cfg env r w).2.redis.lookup
          (idemKey (GetTenantID r.ctxTenantID) (r.HeaderGet "Idempotency-Key")) →
      (IngestEvent parseTime cfg retryEnv r w2).1 =
        ⟨202, .ingest ⟨"accepted", retryEnv.requestID, true⟩⟩ ∧
      publishCalls (IngestEvent parseTime cfg retryEnv r w2).2 = publishCalls w2 ∧
      (IngestEvent parseTime cfg retryEnv r w2).2.topic = w2.topic) := by
  have hfirst := IngestEvent_publish parseTime cfg env r w req htne hb hv hk
    (Or.inr (Or.inr hnone))
  have hrecord : (IngestEvent parseTime cfg env r w).2.redis.lookup
      (idemKey (GetTenantID r.ctxTenantID) (r.HeaderGet "Idempotency-Key")) = some 1 := by
    rw [hfirst]
    simp only [hidem, hset, and_self, if_true]
    exact lookup_cons_self _ _ _
  refine ⟨?_, ?_, hrecord, ?_⟩
  · rw [hfirst, hsend]
    rfl
  · rw [hfirst, hsend]
    rfl
  · intro retryEnv w2 hset2 hlive
    rw [hrecord] at hlive
    rw [IngestEvent_duplicate parseTime cfg retryEnv r w2 req 1 htne hb hv hk hidem hset2
      hlive]
    exact ⟨rfl, by simp, rfl⟩

/-- C5 fails as stated.  The broker rejects the first request of tenant_a with token k1: the
response is 500, and the record for (tenant_a, k1) exists afterwards.  The retry with the same
token is answered 202 duplicate=true, and the topic is still empty: the event is never
published. -/
theorem C5_counterexample :
    (NewRouter parseRFC3339 sampleConfig { sampleEnv "r1" with sendFails := true }
        (sampleRequest "k1") emptyWorld).1 =
      ⟨500, .error ⟨⟨"INTERNAL_ERROR", "Failed to publish event"⟩⟩⟩ ∧
    (NewRouter parseRFC3339 sampleConfig { sampleEnv "r1" with sendFails := true }
        (sampleRequest "k1") emptyWorld).2.redis.lookup (idemKey "tenant_a" "k1") = some 1 ∧
    (NewRouter parseRFC3339 sampleConfig (sampleEnv "r2") (sampleRequest "k1")
        (NewRouter parseRFC3339 sampleConfig { sampleEnv "r1" with sendFails := true }
          (sampleRequest "k1") emptyWorld).2).1 =
      ⟨202, .ingest ⟨"accepted", "r2", true⟩⟩ ∧
    (NewRouter parseRFC3339 sampleConfig (sampleEnv "r2") (sampleRequest "k1")
        (NewRouter parseRFC3339 sampleConfig { sampleEnv "r1" with sendFails := true }
          (sampleRequest "k1") emptyWorld).2).2.topic = [] ∧
    publishCalls (NewRouter parseRFC3339 sampleConfig (sampleEnv "r2") (sampleRequest "k1")
        (NewRouter parseRFC3339 sampleConfig { sampleEnv "r1" with sendFails := true }
          (sampleRequest "k1") emptyWorld).2).2 = 1 := by
  decide

/-- C5 at the sample request of tenant_a with token k1, the broker failing: the record is there
after the request. -/
theorem C5_publish_failure_keeps_record_witness :
    (IngestEvent parseRFC3339 sampleConfig { sampleEnv "r1" with sendFails := true }
        { sampleRequest "k1" with ctxTenantID := some "tenant_a" } emptyWorld).1 =
      ⟨500, .error ⟨⟨"INTERNAL_ERROR", "Failed to publish event"⟩⟩⟩ ∧
    (IngestEvent parseRFC3339 sampleConfig { sampleEnv "r1" with sendFails := true }
        { sampleRequest "k1" with ctxTenantID := some "tenant_a" } emptyWorld).2.redis.lookup
      (idemKey "tenant_a" "k1") = some 1 :=
  have h := C5_publish_failure_keeps_record parseRFC3339 sampleConfig
    { sampleEnv "r1" with sendFails := true }
    { sampleRequest "k1" with ctxTenantID := some "tenant_a" } emptyWorld sampleEvent
    (by decide) (by decide) (by decide) (by decide) (by decide) (by decide) (by decide)
    (by decide)
  ⟨h.1, h.2.2.1⟩

/-- C6.  For an authenticated request with a valid body and a non-empty Idempotency-Key:
a store failure in the rate-limit stage (the increment, or the expiry call on the first count)
lets the request through to the handler; a failure of the set-if-absent call makes the handler
treat the request as newly claimed, whatever the keyspace holds: it calls the publisher, and
answers 202 duplicate=false when the publish succeeds; with both stages failing the chain does
just that.  Whatever the store does, the only error responses are the 429 of a check that
really denied and the 500 of a failed publish. -/
theorem C6_store_failure_fail_open (parseTime : String → Bool) (cfg : Config) (env : Env)
    (r : Request) (w : World) (tenant : String) (req : IngestRequest)
    (hkey : r.HeaderGet "X-API-Key" ≠ "")
    (hlook : cfg.APIKeys.lookup (r.HeaderGet "X-API-Key") = some tenant)
    (htne : tenant ≠ "") (hb : r.Body = some req) (hv : Validate parseTime req = none)
    (hk : r.HeaderGet "Idempotency-Key" ≠ "") :
    (cfg.RateLimitEnabled = true →
      (env.incrFails = true ∨ (env.expireFails = true ∧
        (w.redis.lookup (rateKey tenant env.minuteBucket)).getD 0 = 0)) →
      NewRouter parseTime cfg env r w =
        IngestEvent parseTime cfg env { r with ctxTenantID := some tenant }
          (CheckRateLimit env tenant cfg.RateLimitPerMin w).2) ∧
    (∀ w1 : World, cfg.IdempotencyEnabled = true → env.setNXFails = true →
      publishCalls
          (IngestEvent parseTime cfg env { r with ctxTenantID := some tenant } w1).2 =
        publishCalls w1 + 1 ∧
      (env.sendFails = false →
        (IngestEvent parseTime cfg env { r with ctxTenantID := some tenant } w1).1 =
          ⟨202, .ingest ⟨"accepted", env.requestID, false⟩⟩ ∧
        (IngestEvent parseTime cfg env { r with ctxTenantID := some tenant } w1).2.topic =
          w1.topic ++ [⟨tenant, env.receivedAt, env.requestID,
            r.HeaderGet "Idempotency-Key", req⟩])) ∧
    ((cfg.RateLimitEnabled = true →
        (env.incrFails = true ∨ (env.expireFails = true ∧
          (w.redis.lookup (rateKey tenant env.minuteBucket)).getD 0 = 0))) →
      (cfg.IdempotencyEnabled = true → env.setNXFails = true) →
      publishCalls (NewRouter parseTime cfg env r w).2 = publishCalls w + 1 ∧
      (env.sendFails = false →
        (NewRouter parseTime cfg env r w).1 =
          ⟨202, .ingest ⟨"accepted", env.requestID, false⟩⟩ ∧
        (NewRouter parseTime cfg env r w).2.topic =
          w.topic ++ [⟨tenant, env.receivedAt, env.requestID,
            r.HeaderGet "Idempotency-Key", req⟩])) ∧
    ((NewRouter parseTime cfg env r w).1.statusCode = 202 ∨
      (cfg.RateLimitEnabled = true ∧
        (CheckRateLimit env tenant cfg.RateLimitPerMin w).1 = .ok false ∧
        (NewRouter parseTime cfg env r w).1.statusCode = 429) ∨
      (env.sendFails = true ∧ (NewRouter parseTime cfg env r w).1.statusCode = 500)) := by
  have hctx : GetTenantID ({ r with ctxTenantID := some tenant } : Request).ctxTenantID =
      tenant := rfl
  have hhdr : ({ r with ctxTenantID := some tenant } : Request).HeaderGet "Idempotency-Key" =
      r.HeaderGet "Idempotency-Key" := rfl
  have hbody : ({ r with ctxTenantID := some tenant } : Request).Body = some req := hb
  have htne2 : GetTenantID ({ r with ctxTenantID := some tenant } : Request).ctxTenantID ≠
      "" := by rw [hctx]; exact htne
  have hrouter := NewRouter_authenticated parseTime cfg env r w tenant hkey hlook
  have hrate : ∀ next : Handler,
      (env.incrFails = true ∨ (env.expireFails = true ∧
        (w.redis.lookup (rateKey tenant env.minuteBucket)).getD 0 = 0)) →
      rateLimitMiddleware cfg next env { r with ctxTenantID := some tenant } w =
        next env { r with ctxTenantID := some tenant }
          (CheckRateLimit env tenant cfg.RateLimitPerMin w).2 := by
    intro next hfail
    obtain ⟨e, he⟩ := (CheckRateLimit_error_iff env tenant cfg.RateLimitPerMin w).mpr hfail
    rw [rateLimitMiddleware_eq cfg next env _ w htne2, hctx, if_neg (by rw [he]; simp)]
  have hdedup : ∀ w1 : World, (cfg.IdempotencyEnabled = true → env.setNXFails = true) →
      publishCalls
          (IngestEvent parseTime cfg env { r with ctxTenantID := some tenant } w1).2 =
        publishCalls w1 + 1 ∧
      (env.sendFails = false →
        (IngestEvent parseTime cfg env { r with ctxTenantID := some tenant } w1).1 =
          ⟨202, .ingest ⟨"accepted", env.requestID, false⟩⟩ ∧
        (IngestEvent parseTime cfg env { r with ctxTenantID := some tenant } w1).2.topic =
          w1.topic ++ [⟨tenant, env.receivedAt, env.requestID,
            r.HeaderGet "Idempotency-Key", req⟩]) := by
    intro w1 hfail
    have hnew : cfg.IdempotencyEnabled = false ∨ env.setNXFails = true ∨
        w1.redis.lookup (idemKey
          (GetTenantID ({ r with ctxTenantID := some tenant } : Request).ctxTenantID)
          (({ r with ctxTenantID := some tenant } : Request).HeaderGet "Idempotency-Key")) =
          none := by
      cases hi : cfg.IdempotencyEnabled with
      | false => exact Or.inl rfl
      | true => exact Or.inr (Or.inl (hfail hi))
    obtain ⟨p1, p2, p3⟩ := IngestEvent_publish_frame parseTime cfg env
      { r with ctxTenantID := some tenant } w1 req htne2 hbody hv (by rw [hhdr]; exact hk) hnew
    refine ⟨p1, fun hs => ?_⟩
    rw [p2, p3, hs]
    exact ⟨rfl, rfl⟩
  refine ⟨?_, fun w1 hi hf => hdedup w1 (fun _ => hf), ?_, ?_⟩
  · intro hrl hfail
    rw [hrouter, if_pos hrl]
    exact hrate _ hfail
  · intro hfail hfail2
    rw [hrouter]
    cases hrl : cfg.RateLimitEnabled
    · simp only [Bool.false_eq_true, if_false]
      exact hdedup w hfail2
    · simp only [if_true]
      rw [hrate _ (hfail hrl)]
      obtain ⟨f1, f2, _, _⟩ := CheckRateLimit_frame env tenant cfg.RateLimitPerMin w
      obtain ⟨d1, d2⟩ := hdedup (CheckRateLimit env tenant cfg.RateLimitPerMin w).2 hfail2
      rw [d1, f2]
      refine ⟨rfl, fun hs => ?_⟩
      obtain ⟨d3, d4⟩ := d2 hs
      rw [d3, d4, f1]
      exact ⟨rfl, rfl⟩
  · have hhandler : ∀ w1 : World,
        (IngestEvent parseTime cfg env { r with ctxTenantID := some tenant } w1).1.statusCode =
          202 ∨
        (env.sendFails = true ∧
          (IngestEvent parseTime cfg env
            { r with ctxTenantID := some tenant } w1).1.statusCode = 500) := by
      intro w1
      by_cases hdup : cfg.IdempotencyEnabled = true ∧ env.setNXFails = false ∧
          ∃ v, w1.redis.lookup (idemKey
            (GetTenantID ({ r with ctxTenantID := some tenant } : Request).ctxTenantID)
            (({ r with ctxTenantID := some tenant } : Request).HeaderGet
              "Idempotency-Key")) = some v
      · obtain ⟨hi, hf, v, hl⟩ := hdup
        rw [IngestEvent_duplicate parseTime cfg env _ w1 req v htne2 hbody hv
          (by rw [hhdr]; exact hk) hi hf hl]
        exact Or.inl rfl
      · have hnew : cfg.IdempotencyEnabled = false ∨ env.setNXFails = true ∨
            w1.redis.lookup (idemKey
              (GetTenantID ({ r with ctxTenantID := some tenant } : Request).ctxTenantID)
              (({ r with ctxTenantID := some tenant } : Request).HeaderGet
                "Idempotency-Key")) = none := by
          cases hi : cfg.IdempotencyEnabled with
          | false => exact Or.inl rfl
          | true =>
            cases hf : env.setNXFails with
            | true => exact Or.inr (Or.inl rfl)
            | false =>
              cases hl : w1.redis.lookup (idemKey
                (GetTenantID ({ r with ctxTenantID := some tenant } : Request).ctxTenantID)
                (({ r with ctxTenantID := some tenant } : Request).HeaderGet
                  "Idempotency-Key")) with
              | none => exact Or.inr (Or.inr rfl)
              | some v => exact absurd ⟨hi, hf, v, hl⟩ hdup
        obtain ⟨_, p2, _⟩ := IngestEvent_publish_frame parseTime cfg env
          { r with ctxTenantID := some tenant } w1 req htne2 hbody hv
          (by rw [hhdr]; exact hk) hnew
        rw [p2]
        cases hs : env.sendFails
        · exact Or.inl rfl
        · exact Or.inr ⟨rfl, rfl⟩
    rw [hrouter]
    cases hrl : cfg.RateLimitEnabled
    · simp only [Bool.false_eq_true, if_false, false_and, false_or]
      exact hhandler w
    · simp only [if_true, true_and]
      rw [rateLimitMiddleware_eq cfg _ env _ w htne2, hctx]
      by_cases hd : (CheckRateLimit env tenant cfg.RateLimitPerMin w).1 = .ok false
      · rw [if_pos hd]
        exact Or.inr (Or.inl ⟨hd, rfl⟩)
      · rw [if_neg hd]
        rcases hhandler (CheckRateLimit env tenant cfg.RateLimitPerMin w).2 with h | h
        · exact Or.inl h
        · exact Or.inr (Or.inr h)

/-- C6 with Redis down for every call: the sample request still reaches the broker and is
answered 202 duplicate=false. -/
theorem C6_store_failure_fail_open_witness :
    publishCalls (NewRouter parseRFC3339 sampleConfig
        { sampleEnv "r1" with incrFails := true, expireFails := true, setNXFails := true }
        (sampleRequest "k1") emptyWorld).2 = publishCalls emptyWorld + 1 ∧
    (NewRouter parseRFC3339 sampleConfig
        { sampleEnv "r1" with incrFails := true, expireFails := true, setNXFails := true }
        (sampleRequest "k1") emptyWorld).1 = ⟨202, .ingest ⟨"accepted", "r1", false⟩⟩ :=
  have h := (C6_store_failure_fail_open parseRFC3339 sampleConfig
    { sampleEnv "r1" with incrFails := true, expireFails := true, setNXFails := true }
    (sampleRequest "k1") emptyWorld "tenant_a" sampleEvent (by decide) (by decide) (by decide)
    (by decide) (by decide) (by decide)).2.2.1 (fun _ => Or.inl (by decide))
    (fun _ => by decide)
  ⟨h.1, (h.2 (by decide)).1⟩

/-! ### The same request, repeated -/

/-- The response of the chain to a request whose pair has a record: 429 when the rate limiter
is on and the new count is over the limit, 202 duplicate=true otherwise. -/
theorem chain_duplicate_response (parseTime : String → Bool) (cfg : Config) (env : Env)
    (r : Request) (w : World) (tenant : String) (req : IngestRequest) (v : Int)
    (hkey : r.HeaderGet "X-API-Key" ≠ "")
    (hlook : cfg.APIKeys.lookup (r.HeaderGet "X-API-Key") = some tenant)
    (htne : tenant ≠ "") (hb : r.Body = some req) (hv : Validate parseTime req = none)
    (hk : r.HeaderGet "Idempotency-Key" ≠ "")
    (hidem : cfg.IdempotencyEnabled = true)
    (hincr : env.incrFails = false) (hexp : env.expireFails = false)
    (hset : env.setNXFails = false)
    (hrec : w.redis.lookup (idemKey tenant (r.HeaderGet "Idempotency-Key")) = some v) :
    (NewRouter parseTime cfg env r w).1 =
      if cfg.RateLimitEnabled = true ∧
          cfg.RateLimitPerMin < (w.redis.lookup (rateKey tenant env.minuteBucket)).getD 0 + 1
      then
        ⟨429, .error ⟨⟨"RATE_LIMITED",
          "Rate limit exceeded: " ++ toString cfg.RateLimitPerMin ++ " requests per minute"⟩⟩⟩
      else ⟨202, .ingest ⟨"accepted", env.requestID, true⟩⟩ := by
  have hctx : GetTenantID ({ r with ctxTenantID := some tenant } : Request).ctxTenantID =
      tenant := rfl
  have hhdr : ({ r with ctxTenantID := some tenant } : Request).HeaderGet "Idempotency-Key" =
      r.HeaderGet "Idempotency-Key" := rfl
  have hbody : ({ r with ctxTenantID := some tenant } : Request).Body = some req := hb
  have htne2 : GetTenantID ({ r with ctxTenantID := some tenant } : Request).ctxTenantID ≠
      "" := by rw [hctx]; exact htne
  rw [NewRouter_authenticated parseTime cfg env r w tenant hkey hlook]
  cases hrl : cfg.RateLimitEnabled
  · simp only [Bool.false_eq_true, if_false, false_and]
    rw [IngestEvent_duplicate parseTime cfg env _ w req v htne2 hbody hv
      (by rw [hhdr]; exact hk) hidem hset (by rw [hctx, hhdr]; exact hrec)]
  · simp only [if_true, true_and]
    rw [rateLimitMiddleware_eq cfg _ env _ w htne2, hctx]
    obtain ⟨_, _, f3, _⟩ := CheckRateLimit_frame env tenant cfg.RateLimitPerMin w
    have hrec1 : (CheckRateLimit env tenant cfg.RateLimitPerMin w).2.redis.lookup
        (idemKey tenant (r.HeaderGet "Idempotency-Key")) = some v := by
      rw [f3 _ (idemKey_ne_rateKey _ _ _ _), hrec]
    have hres : (CheckRateLimit env tenant cfg.RateLimitPerMin w).1 =
        .ok (decide ((w.redis.lookup (rateKey tenant env.minuteBucket)).getD 0 + 1 ≤
          cfg.RateLimitPerMin)) := by
      rw [CheckRateLimit_working env tenant cfg.RateLimitPerMin w hincr hexp]
    by_cases hover :
        cfg.RateLimitPerMin < (w.redis.lookup (rateKey tenant env.minuteBucket)).getD 0 + 1
    · have hden : (CheckRateLimit env tenant cfg.RateLimitPerMin w).1 = .ok false := by
        rw [hres]
        simp [hover]
      rw [if_pos hden, if_pos hover]
    · have hall : (CheckRateLimit env tenant cfg.RateLimitPerMin w).1 ≠ .ok false := by
        rw [hres]
        simp
        omega
      rw [if_neg hall, if_neg hover]
      rw [IngestEvent_duplicate parseTime cfg env _ _ req v htne2 hbody hv
        (by rw [hhdr]; exact hk) hidem hset (by rw [hctx, hhdr]; exact hrec1)]

/-- The first run of the chain on a new token, within budget and with everything working: 202
duplicate=false, one message published, the record written, the counter at 1. -/
theorem chain_first_step (parseTime : String → Bool) (cfg : Config) (env : Env)
    (r : Request) (w : World) (tenant : String) (req : IngestRequest)
    (hkey : r.HeaderGet "X-API-Key" ≠ "")
    (hlook : cfg.APIKeys.lookup (r.HeaderGet "X-API-Key") = some tenant)
    (htne : tenant ≠ "") (hb : r.Body = some req) (hv : Validate parseTime req = none)
    (hk : r.HeaderGet "Idempotency-Key" ≠ "")
    (hidem : cfg.IdempotencyEnabled = true)
    (hL : cfg.RateLimitEnabled = true → 1 ≤ cfg.RateLimitPerMin)
    (hincr : env.incrFails = false) (hexp : env.expireFails = false)
    (hset : env.setNXFails = false) (hsend : env.sendFails = false)
    (hnone : w.redis.lookup (idemKey tenant (r.HeaderGet "Idempotency-Key")) = none)
    (hcnt : w.redis.lookup (rateKey tenant env.minuteBucket) = none) :
    (NewRouter parseTime cfg env r w).1 = ⟨202, .ingest ⟨"accepted", env.requestID, false⟩⟩ ∧
    (NewRouter parseTime cfg env r w).2.topic =
      w.topic ++ [⟨tenant, env.receivedAt, env.requestID, r.HeaderGet "Idempotency-Key",
        req⟩] ∧
    publishCalls (NewRouter parseTime cfg env r w).2 = publishCalls w + 1 ∧
    (NewRouter parseTime cfg env r w).2.redis.lookup
      (idemKey tenant (r.HeaderGet "Idempotency-Key")) = some 1 ∧
    (cfg.RateLimitEnabled = true →
      (NewRouter parseTime cfg env r w).2.redis.lookup (rateKey tenant env.minuteBucket) =
        some 1) := by
  have hctx : GetTenantID ({ r with ctxTenantID := some tenant } : Request).ctxTenantID =
      tenant := rfl
  have hhdr : ({ r with ctxTenantID := some tenant } : Request).HeaderGet "Idempotency-Key" =
      r.HeaderGet "Idempotency-Key" := rfl
  have hbody : ({ r with ctxTenantID := some tenant } : Request).Body = some req := hb
  have htne2 : GetTenantID ({ r with ctxTenantID := some tenant } : Request).ctxTenantID ≠
      "" := by rw [hctx]; exact htne
  have hstep : ∀ w1 : World,
      w1.redis.lookup (idemKey tenant (r.HeaderGet "Idempotency-Key")) = none →
      IngestEvent parseTime cfg env { r with ctxTenantID := some tenant } w1 =
        (⟨202, .ingest ⟨"accepted", env.requestID, false⟩⟩,
          { redis := (idemKey tenant (r.HeaderGet "Idempotency-Key"), 1) :: w1.redis
            topic := w1.topic ++ [⟨tenant, env.receivedAt, env.requestID,
              r.HeaderGet "Idempotency-Key", req⟩]
            calls := w1.calls ++ [Call.SetNX (idemKey tenant (r.HeaderGet "Idempotency-Key"))
              1 cfg.IdempotencyTTL] ++ [Call.SendMessage "events.raw" ⟨tenant, env.receivedAt,
              env.requestID, r.HeaderGet "Idempotency-Key", req⟩] }) := by
    intro w1 h1
    rw [IngestEvent_publish parseTime cfg env _ w1 req htne2 hbody hv
      (by rw [hhdr]; exact hk) (Or.inr (Or.inr (by rw [hctx, hhdr]; exact h1)))]
    simp only [hctx, hhdr, hidem, hset, hsend, and_self, if_true, Bool.false_eq_true, if_false]
  rw [NewRouter_authenticated parseTime cfg env r w tenant hkey hlook]
  cases hrl : cfg.RateLimitEnabled
  · simp only [Bool.false_eq_true, if_false]
    rw [hstep w hnone]
    exact ⟨rfl, rfl, by simp [publishCalls, List.filter_append], lookup_cons_self _ _ _,
      fun h => absurd h (by simp)⟩
  · simp only [if_true]
    rw [rateLimitMiddleware_eq cfg _ env _ w htne2, hctx]
    have hwork := CheckRateLimit_working env tenant cfg.RateLimitPerMin w hincr hexp
    rw [hcnt] at hwork
    simp only [Option.getD_none, zero_add, if_true] at hwork
    have h1L : (1 : Int) ≤ cfg.RateLimitPerMin := hL hrl
    rw [hwork]
    simp only [h1L, decide_True]
    rw [if_neg (by simp)]
    rw [hstep _ (by rw [lookup_cons_ne _ _ _ _ (idemKey_ne_rateKey _ _ _ _)]; exact hnone)]
    refine ⟨rfl, rfl, by simp [publishCalls, List.filter_append], lookup_cons_self _ _ _,
      fun _ => ?_⟩
    show List.lookup _ (_ :: _ :: w.redis) = some 1
    rw [lookup_cons_ne _ _ _ _ (fun h => idemKey_ne_rateKey _ _ _ _ h.symm)]
    exact lookup_cons_self _ _ _

theorem serveAll_cons (h : Handler) (env : Env) (r : Request) (rest : List (Env × Request))
    (w : World) :
    serveAll h ((env, r) :: rest) w =
      ((h env r w).1 :: (serveAll h rest (h env r w).2).1, (serveAll h rest (h env r w).2).2)
    := rfl

/-- Runs of the chain on a request whose pair has a record: the i-th answer is 429 when the
rate limiter is on and the count is over the limit, 202 duplicate=true otherwise; nothing is
published. -/
theorem serveAll_duplicates (parseTime : String → Bool) (cfg : Config) (r : Request)
    (tenant bucket : String) (req : IngestRequest)
    (hkey : r.HeaderGet "X-API-Key" ≠ "")
    (hlook : cfg.APIKeys.lookup (r.HeaderGet "X-API-Key") = some tenant)
    (htne : tenant ≠ "") (hb : r.Body = some req) (hv : Validate parseTime req = none)
    (hk : r.HeaderGet "Idempotency-Key" ≠ "")
    (hidem : cfg.IdempotencyEnabled = true) :
    ∀ (envs : List Env) (w : World) (c v : Int),
      (∀ e ∈ envs, e.minuteBucket = bucket ∧ e.incrFails = false ∧ e.expireFails = false ∧
        e.setNXFails = false) →
      w.redis.lookup (idemKey tenant (r.HeaderGet "Idempotency-Key")) = some v →
      (cfg.RateLimitEnabled = true →
        (w.redis.lookup (rateKey tenant bucket)).getD 0 = c) →
      (serveAll (NewRouter parseTime cfg) (envs.map (fun e => (e, r))) w).1.length =
        envs.length ∧
      (∀ (i : Nat) (hi : i < envs.length),
        (serveAll (NewRouter parseTime cfg) (envs.map (fun e => (e, r))) w).1[i]? =
          some (if cfg.RateLimitEnabled = true ∧ cfg.RateLimitPerMin < c + (i : Int) + 1 then
            ⟨429, .error ⟨⟨"RATE_LIMITED", "Rate limit exceeded: " ++
              toString cfg.RateLimitPerMin ++ " requests per minute"⟩⟩⟩
          else ⟨202, .ingest ⟨"accepted", envs[i].requestID, true⟩⟩)) ∧
      (serveAll (NewRouter parseTime cfg) (envs.map (fun e => (e, r))) w).2.topic = w.topic ∧
      publishCalls (serveAll (NewRouter parseTime cfg) (envs.map (fun e => (e, r))) w).2 =
        publishCalls w := by
  intro envs
  induction envs with
  | nil =>
    intro w c v _ _ _
    exact ⟨rfl, fun i hi => absurd hi (Nat.not_lt_zero i), rfl, rfl⟩
  | cons e rest ih =>
    intro w c v henv hrec hcnt
    obtain ⟨hbk, hincr, hexp, hset⟩ := henv e (List.mem_cons_self _ _)
    have hrest := fun e2 h2 => henv e2 (List.mem_cons_of_mem _ h2)
    obtain ⟨p1, p2, p3, p4, _⟩ := chain_record_frame parseTime cfg e r w tenant v hkey hlook
      htne hidem hincr hexp hset hrec
    have hresp := chain_duplicate_response parseTime cfg e r w tenant req v hkey hlook htne hb
      hv hk hidem hincr hexp hset hrec
    rw [hbk] at p4 hresp
    have hcnt1 : cfg.RateLimitEnabled = true →
        ((NewRouter parseTime cfg e r w).2.redis.lookup (rateKey tenant bucket)).getD 0 =
          c + 1 := by
      intro hrl
      rw [p4 hrl, hcnt hrl]
      rfl
    obtain ⟨q1, q2, q3, q4⟩ := ih (NewRouter parseTime cfg e r w).2 (c + 1) v hrest p3 hcnt1
    rw [List.map_cons, serveAll_cons]
    refine ⟨by simp [q1], ?_, by rw [q3, p2], by rw [q4, p1]⟩
    intro i hi
    cases i with
    | zero =>
      simp only [List.getElem?_cons_zero, List.getElem_cons_zero, Nat.cast_zero, add_zero]
      rw [hresp]
      by_cases hrl : cfg.RateLimitEnabled = true
      · rw [hcnt hrl]
      · simp [hrl]
    | succ j =>
      have hj : j < rest.length := Nat.lt_of_succ_lt_succ hi
      simp only [List.getElem?_cons_succ, List.getElem_cons_succ]
      rw [q2 j hj]
      have harith : c + 1 + (j : Int) + 1 = c + ((j + 1 : Nat) : Int) + 1 := by
        push_cast
        ring
      rw [harith]

/-- C1, as the code has it.  The same valid, authenticated request is served N >= 1 times in a
row inside one minute bucket, with idempotency on, every external call succeeding, no record for
the pair and no counter for the bucket at the start, and a budget of at least 1 when the rate
limiter is on.  Then the first request is answered 202 duplicate=false and is the only one
published (one call to the broker, one message on the topic).  The k-th request, k >= 2, is
answered 202 duplicate=true when the rate limiter is off or k is within the budget, and 429
RATE_LIMITED when the rate limiter is on and k exceeds the budget: the rate-limit stage runs
before the dedup stage and counts the duplicates too. -/
theorem C1_same_request_repeated (parseTime : String → Bool) (cfg : Config) (r : Request)
    (tenant bucket : String) (req : IngestRequest) (e : Env) (rest : List Env) (w : World)
    (hkey : r.HeaderGet "X-API-Key" ≠ "")
    (hlook : cfg.APIKeys.lookup (r.HeaderGet "X-API-Key") = some tenant)
    (htne : tenant ≠ "") (hb : r.Body = some req) (hv : Validate parseTime req = none)
    (hk : r.HeaderGet "Idempotency-Key" ≠ "")
    (hidem : cfg.IdempotencyEnabled = true)
    (hL : cfg.RateLimitEnabled = true → 1 ≤ cfg.RateLimitPerMin)
    (henv : ∀ x ∈ e :: rest, x.minuteBucket = bucket ∧ x.incrFails = false ∧
      x.expireFails = false ∧ x.setNXFails = false ∧ x.sendFails = false)
    (hnone : w.redis.lookup (idemKey tenant (r.HeaderGet "Idempotency-Key")) = none)
    (hcnt : w.redis.lookup (rateKey tenant bucket) = none) :
    (serveAll (NewRouter parseTime cfg) ((e :: rest).map (fun x => (x, r))) w).1.length =
      rest.length + 1 ∧
    (serveAll (NewRouter parseTime cfg) ((e :: rest).map (fun x => (x, r))) w).1[0]? =
      some ⟨202, .ingest ⟨"accepted", e.requestID, false⟩⟩ ∧
    (∀ (i : Nat) (hi : i < rest.length),
      (serveAll (NewRouter parseTime cfg) ((e :: rest).map (fun x => (x, r))) w).1[i + 1]? =
        some (if cfg.RateLimitEnabled = true ∧ cfg.RateLimitPerMin < (i : Int) + 2 then
          ⟨429, .error ⟨⟨"RATE_LIMITED", "Rate limit exceeded: " ++
            toString cfg.RateLimitPerMin ++ " requests per minute"⟩⟩⟩
        else ⟨202, .ingest ⟨"accepted", rest[i].requestID, true⟩⟩)) ∧
    (serveAll (NewRouter parseTime cfg) ((e :: rest).map (fun x => (x, r))) w).2.topic =
      w.topic ++ [⟨tenant, e.receivedAt, e.requestID, r.HeaderGet "Idempotency-Key", req⟩] ∧
    publishCalls (serveAll (NewRouter parseTime cfg) ((e :: rest).map (fun x => (x, r))) w).2 =
      publishCalls w + 1 := by
  obtain ⟨hbk, hincr, hexp, hset, hsend⟩ := henv e (List.mem_cons_self _ _)
  have hrest : ∀ x ∈ rest, x.minuteBucket = bucket ∧ x.incrFails = false ∧
      x.expireFails = false ∧ x.setNXFails = false := by
    intro x hx
    obtain ⟨a1, a2, a3, a4, _⟩ := henv x (List.mem_cons_of_mem _ hx)
    exact ⟨a1, a2, a3, a4⟩
  obtain ⟨s1, s2, s3, s4, s5⟩ := chain_first_step parseTime cfg e r w tenant req hkey hlook
    htne hb hv hk hidem hL hincr hexp hset hsend hnone (by rw [hbk]; exact hcnt)
  rw [hbk] at s5
  have hcnt1 : cfg.RateLimitEnabled = true →
      ((NewRouter parseTime cfg e r w).2.redis.lookup (rateKey tenant bucket)).getD 0 = 1 := by
    intro hrl
    rw [s5 hrl]
    rfl
  obtain ⟨q1, q2, q3, q4⟩ := serveAll_duplicates parseTime cfg r tenant bucket req hkey hlook
    htne hb hv hk hidem rest (NewRouter parseTime cfg e r w).2 1 1 hrest s4 hcnt1
  rw [List.map_cons, serveAll_cons]
  refine ⟨by simp [q1], by simp [s1], ?_, by rw [q3, s2], by rw [q4, s3]⟩
  intro i hi
  simp only [List.getElem?_cons_succ]
  rw [q2 i hi]
  have harith : (1 : Int) + (i : Int) + 1 = (i : Int) + 2 := by ring
  rw [harith]

/-- C1 fails as stated.  Budget 2 per minute, the same request of tenant_a with token k1 sent
3 times: the answers are 202 duplicate=false, 202 duplicate=true and 429 RATE_LIMITED, so the
third request is not answered 202 duplicate=true.  One message is published. -/
theorem C1_counterexample :
    (serveAll (NewRouter parseRFC3339 sampleConfig)
        [(sampleEnv "r1", sampleRequest "k1"), (sampleEnv "r2", sampleRequest "k1"),
          (sampleEnv "r3", sampleRequest "k1")] emptyWorld).1 =
      [⟨202, .ingest ⟨"accepted", "r1", false⟩⟩, ⟨202, .ingest ⟨"accepted", "r2", true⟩⟩,
        ⟨429, .error ⟨⟨"RATE_LIMITED", "Rate limit exceeded: 2 requests per minute"⟩⟩⟩] ∧
    (serveAll (NewRouter parseRFC3339 sampleConfig)
        [(sampleEnv "r1", sampleRequest "k1"), (sampleEnv "r2", sampleRequest "k1"),
          (sampleEnv "r3", sampleRequest "k1")] emptyWorld).1[2]? ≠
      some ⟨202, .ingest ⟨"accepted", "r3", true⟩⟩ ∧
    (serveAll (NewRouter parseRFC3339 sampleConfig)
        [(sampleEnv "r1", sampleRequest "k1"), (sampleEnv "r2", sampleRequest "k1"),
          (sampleEnv "r3", sampleRequest "k1")] emptyWorld).2.topic.length = 1 := by
  decide

/-- C1 at budget 2 with the sample request sent 3 times: the first answer is 202
duplicate=false, the second 202 duplicate=true, and one message is on the topic. -/
theorem C1_same_request_repeated_witness :
    (serveAll (NewRouter parseRFC3339 sampleConfig)
        ([sampleEnv "r1", sampleEnv "r2", sampleEnv "r3"].map
          (fun x => (x, sampleRequest "k1"))) emptyWorld).1[0]? =
      some ⟨202, .ingest ⟨"accepted", "r1", false⟩⟩ ∧
    (serveAll (NewRouter parseRFC3339 sampleConfig)
        ([sampleEnv "r1", sampleEnv "r2", sampleEnv "r3"].map
          (fun x => (x, sampleRequest "k1"))) emptyWorld).1[1]? =
      some ⟨202, .ingest ⟨"accepted", "r2", true⟩⟩ ∧
    publishCalls (serveAll (NewRouter parseRFC3339 sampleConfig)
        ([sampleEnv "r1", sampleEnv "r2", sampleEnv "r3"].map
          (fun x => (x, sampleRequest "k1"))) emptyWorld).2 = publishCalls emptyWorld + 1 :=
  have h := C1_same_request_repeated parseRFC3339 sampleConfig (sampleRequest "k1") "tenant_a"
    "2024-01-01T00:05" sampleEvent (sampleEnv "r1") [sampleEnv "r2", sampleEnv "r3"] emptyWorld
    (by decide) (by decide) (by decide) (by decide) (by decide) (by decide) (by decide)
    (by decide) (by decide) (by decide) (by decide)
  ⟨h.2.1, (h.2.2.1 0 (by decide)).trans (by decide), h.2.2.2.2⟩

end Pulse
